import Mathlib

/-!
Shallow embedding of the inaccunes NES emulator, for checking its
specification against the code.

The embedding covers the inaccu6502 CPU core (src/inaccu6502/src/cpu.rs and
src/inaccu6502/src/cpu/addressing_modes.rs) and the inaccunes PPU
(src/inaccunes/src/system/ppu.rs, src/inaccunes/src/cartridge.rs).

Conventions:
- Machine integers (u8, u16) are Nat with explicit reduction modulo 256 or
  65536 exactly where the Rust code wraps.  Values read from the abstract
  memory bus are unconstrained Nats; theorems that need them to be bytes
  carry an explicit hypothesis.
- Code that panics (the todo macro for NMI and IRQ handling, the BRK todo
  arm, the unknown-opcode panic arm, the todo arm for OAMDATA reads) is
  embedded as Option.none.
- The Memory trait is a record of a read function (which may mutate the
  memory state, as PPU-backed memories do) and a write function.
-/

set_option maxHeartbeats 1600000
set_option maxRecDepth 16000

namespace Inaccu6502

/-- STACK_BASE from cpu.rs. -/
def STACK_BASE : Nat := 0x0100
/-- BYTE_SIGN_BIT from cpu.rs. -/
def BYTE_SIGN_BIT : Nat := 0x80
/-- BYTE_CARRIED_BIT from cpu.rs. -/
def BYTE_CARRIED_BIT : Nat := 0x100

/-- Carry flag bit of the P register. -/
def STATUS_C : Nat := 0x01
/-- Zero flag bit of the P register. -/
def STATUS_Z : Nat := 0x02
/-- Interrupt-mask flag bit of the P register. -/
def STATUS_I : Nat := 0x04
/-- Decimal flag bit of the P register. -/
def STATUS_D : Nat := 0x08
/-- Break flag bit of the P register. -/
def STATUS_B : Nat := 0x10
/-- Hardwired-one bit (bit 5) of the P register. -/
def STATUS_1 : Nat := 0x20
/-- Overflow flag bit of the P register. -/
def STATUS_V : Nat := 0x40
/-- Negative flag bit of the P register. -/
def STATUS_N : Nat := 0x80

/-- clear_bit from cpu.rs: input AND NOT bit (u8 complement of the mask). -/
def clear_bit (input bit : Nat) : Nat := input &&& (bit ^^^ 0xFF)

/-- set_bit from cpu.rs. -/
def set_bit (input bit : Nat) : Nat := input ||| bit

/-- assign_bit from cpu.rs. -/
def assign_bit (input bit : Nat) (whether : Bool) : Nat :=
  if whether then set_bit input bit else clear_bit input bit

/-- is_bit_set from cpu.rs: input AND bit equals bit. -/
def is_bit_set (input bit : Nat) : Bool := input &&& bit == bit

/-- The CPU register file (struct Cpu in cpu.rs). -/
structure Cpu where
  a : Nat
  x : Nat
  y : Nat
  s : Nat
  p : Nat
  pc : Nat
deriving Repr, DecidableEq

/-- Cpu::new: every register starts at 255. -/
def Cpu.new : Cpu := { a := 255, x := 255, y := 255, s := 255, p := 255, pc := 255 }

/-- The Memory trait: a read (which may mutate the memory-side state, as the
PPU-backed bus does) and a write.  The CPU is generic over the memory type. -/
structure Memory (M : Type) where
  read : M → Nat → Nat × M
  write : M → Nat → Nat → M

variable {M : Type}

/-- Cpu::read_pc_and_post_inc: read the byte at PC, then increment PC
(16-bit wrap). -/
def read_pc_and_post_inc (mem : Memory M) (cpu : Cpu) (m : M) : Nat × Cpu × M :=
  let r := mem.read m cpu.pc
  (r.1, { cpu with pc := (cpu.pc + 1) % 65536 }, r.2)

/-- Cpu::push_byte: write at 0x0100 + S, then decrement S (8-bit wrap). -/
def push_byte (mem : Memory M) (cpu : Cpu) (m : M) (byte : Nat) : Cpu × M :=
  let destination := cpu.s + STACK_BASE
  ({ cpu with s := (cpu.s + 255) % 256 }, mem.write m destination byte)

/-- Cpu::pop_byte: increment S (8-bit wrap), then read at 0x0100 + S. -/
def pop_byte (mem : Memory M) (cpu : Cpu) (m : M) : Nat × Cpu × M :=
  let s' := (cpu.s + 1) % 256
  let r := mem.read m (s' + STACK_BASE)
  (r.1, { cpu with s := s' }, r.2)

/-- The result of an addressing mode constructor: the value carried by the
addressing-mode struct.  Immediate carries the operand byte, the memory
modes carry an effective address, and RegisterA/X/Y name a register. -/
inductive Loc where
  | imm (value : Nat)
  | addr (address : Nat)
  | regA
  | regX
  | regY
deriving Repr, DecidableEq

/-- get_address of the addressible addressing modes (only ever called on
memory modes, which carry an address). -/
def Loc.get_address : Loc → Nat
  | .addr a => a
  | _ => 0

/-- The shape of an addressing mode's new function: from the CPU and memory
it computes the mode value, advancing PC past operand bytes. -/
abbrev AM (M : Type) := Cpu → M → Loc × Cpu × M

/-- get_value of an addressing mode (ReadAddressingMode::get_value). -/
def getValue (mem : Memory M) (loc : Loc) (cpu : Cpu) (m : M) : Nat × M :=
  match loc with
  | .imm v => (v, m)
  | .addr a => mem.read m a
  | .regA => (cpu.a, m)
  | .regX => (cpu.x, m)
  | .regY => (cpu.y, m)

/-- put_value of an addressing mode (WriteAddressingMode::put_value).
Immediate has no put_value implementation in the source (the trait system
makes it unreachable); it is embedded as a no-op and never used. -/
def putValue (mem : Memory M) (loc : Loc) (cpu : Cpu) (m : M) (value : Nat) : Cpu × M :=
  match loc with
  | .imm _ => (cpu, m)
  | .addr a => (cpu, mem.write m a value)
  | .regA => ({ cpu with a := value }, m)
  | .regX => ({ cpu with x := value }, m)
  | .regY => ({ cpu with y := value }, m)

/-- Immediate::new: uses the next byte at PC as the value. -/
def amImmediate (mem : Memory M) : AM M := fun cpu m =>
  let r := read_pc_and_post_inc mem cpu m
  (Loc.imm r.1, r.2.1, r.2.2)

/-- ZeroPage::new: the next byte at PC is the address. -/
def amZeroPage (mem : Memory M) : AM M := fun cpu m =>
  let r := read_pc_and_post_inc mem cpu m
  (Loc.addr r.1, r.2.1, r.2.2)

/-- ZeroPageXIndexed::new: operand byte plus X, 8-bit wrap. -/
def amZeroPageXIndexed (mem : Memory M) : AM M := fun cpu m =>
  let r := read_pc_and_post_inc mem cpu m
  (Loc.addr ((r.1 + cpu.x) % 256), r.2.1, r.2.2)

/-- ZeroPageYIndexed::new: operand byte plus Y, 8-bit wrap. -/
def amZeroPageYIndexed (mem : Memory M) : AM M := fun cpu m =>
  let r := read_pc_and_post_inc mem cpu m
  (Loc.addr ((r.1 + cpu.y) % 256), r.2.1, r.2.2)

/-- ZeroPageXIndexedIndirect::new: pointer at (operand + X) mod 256; the
pointer-high read is at that 16-bit address plus one (the source converts to
u16 before the wrapping_add of 1, so 0x00FF reads its high byte from
0x0100). -/
def amZeroPageXIndexedIndirect (mem : Memory M) : AM M := fun cpu m =>
  let r := read_pc_and_post_inc mem cpu m
  let address_of_address := (r.1 + cpu.x) % 256
  let lo := mem.read r.2.2 address_of_address
  let hi := mem.read lo.2 ((address_of_address + 1) % 65536)
  (Loc.addr (lo.1 + 256 * hi.1), r.2.1, hi.2)

/-- ZeroPageIndirectYIndexed::new: pointer at the operand byte; base plus Y
with 16-bit wrap. -/
def amZeroPageIndirectYIndexed (mem : Memory M) : AM M := fun cpu m =>
  let r := read_pc_and_post_inc mem cpu m
  let lo := mem.read r.2.2 r.1
  let hi := mem.read lo.2 (r.1 + 1)
  (Loc.addr ((lo.1 + 256 * hi.1 + cpu.y) % 65536), r.2.1, hi.2)

/-- Absolute::new: two operand bytes, little-endian. -/
def amAbsolute (mem : Memory M) : AM M := fun cpu m =>
  let r1 := read_pc_and_post_inc mem cpu m
  let r2 := read_pc_and_post_inc mem r1.2.1 r1.2.2
  (Loc.addr (r1.1 + 256 * r2.1), r2.2.1, r2.2.2)

/-- AbsoluteXIndexed::new: absolute plus X, 16-bit wrap. -/
def amAbsoluteXIndexed (mem : Memory M) : AM M := fun cpu m =>
  let r1 := read_pc_and_post_inc mem cpu m
  let r2 := read_pc_and_post_inc mem r1.2.1 r1.2.2
  (Loc.addr ((r1.1 + 256 * r2.1 + cpu.x) % 65536), r2.2.1, r2.2.2)

/-- AbsoluteYIndexed::new: absolute plus Y, 16-bit wrap. -/
def amAbsoluteYIndexed (mem : Memory M) : AM M := fun cpu m =>
  let r1 := read_pc_and_post_inc mem cpu m
  let r2 := read_pc_and_post_inc mem r1.2.1 r1.2.2
  (Loc.addr ((r1.1 + 256 * r2.1 + cpu.y) % 65536), r2.2.1, r2.2.2)

/-- RegisterA as an addressing mode. -/
def amRegisterA : AM M := fun cpu m => (Loc.regA, cpu, m)

/-- RegisterX as an addressing mode. -/
def amRegisterX : AM M := fun cpu m => (Loc.regX, cpu, m)

/-- RegisterY as an addressing mode. -/
def amRegisterY : AM M := fun cpu m => (Loc.regY, cpu, m)

/-- Cpu::assign_status_nz_for_result: set Z and N from a result byte. -/
def assign_status_nz_for_result (cpu : Cpu) (result : Nat) : Cpu :=
  let p := assign_bit cpu.p STATUS_Z (result == 0)
  let p := assign_bit p STATUS_N (is_bit_set result BYTE_SIGN_BIT)
  { cpu with p := p }

/-- Cpu::assign_status_cnz_for_result: set C from bit 8 of the 16-bit
result, then N and Z from its low byte; the low byte is the returned
result. -/
def assign_status_cnz_for_result (cpu : Cpu) (result : Nat) : Cpu × Nat :=
  let p := assign_bit cpu.p STATUS_C (is_bit_set result BYTE_CARRIED_BIT)
  (assign_status_nz_for_result { cpu with p := p } (result % 256), result % 256)

/-- Cpu::decrement, generic over a write addressing mode. -/
def decrement (mem : Memory M) (am : AM M) (cpu : Cpu) (m : M) : Cpu × M :=
  let ar := am cpu m
  let gv := getValue mem ar.1 ar.2.1 ar.2.2
  let value := (gv.1 + 255) % 256
  let pv := putValue mem ar.1 ar.2.1 gv.2 value
  (assign_status_nz_for_result pv.1 value, pv.2)

/-- Cpu::increment, generic over a write addressing mode. -/
def increment (mem : Memory M) (am : AM M) (cpu : Cpu) (m : M) : Cpu × M :=
  let ar := am cpu m
  let gv := getValue mem ar.1 ar.2.1 ar.2.2
  let value := (gv.1 + 1) % 256
  let pv := putValue mem ar.1 ar.2.1 gv.2 value
  (assign_status_nz_for_result pv.1 value, pv.2)

/-- Cpu::load: read from the source mode, store into the target register,
set N and Z. -/
def load (mem : Memory M) (target : Loc) (am : AM M) (cpu : Cpu) (m : M) : Cpu × M :=
  let ar := am cpu m
  let gv := getValue mem ar.1 ar.2.1 ar.2.2
  let pv := putValue mem target ar.2.1 gv.2 gv.1
  (assign_status_nz_for_result pv.1 gv.1, pv.2)

/-- Cpu::store: read the source register, write it through the target
addressing mode; no flags. -/
def store (mem : Memory M) (source : Loc) (am : AM M) (cpu : Cpu) (m : M) : Cpu × M :=
  let gv := getValue mem source cpu m
  let ar := am cpu gv.2
  putValue mem ar.1 ar.2.1 ar.2.2 gv.1

/-- Cpu::or_accumulator. -/
def or_accumulator (mem : Memory M) (am : AM M) (cpu : Cpu) (m : M) : Cpu × M :=
  let ar := am cpu m
  let gv := getValue mem ar.1 ar.2.1 ar.2.2
  let a' := ar.2.1.a ||| gv.1
  (assign_status_nz_for_result { ar.2.1 with a := a' } a', gv.2)

/-- Cpu::and_accumulator. -/
def and_accumulator (mem : Memory M) (am : AM M) (cpu : Cpu) (m : M) : Cpu × M :=
  let ar := am cpu m
  let gv := getValue mem ar.1 ar.2.1 ar.2.2
  let a' := ar.2.1.a &&& gv.1
  (assign_status_nz_for_result { ar.2.1 with a := a' } a', gv.2)

/-- Cpu::xor_accumulator. -/
def xor_accumulator (mem : Memory M) (am : AM M) (cpu : Cpu) (m : M) : Cpu × M :=
  let ar := am cpu m
  let gv := getValue mem ar.1 ar.2.1 ar.2.2
  let a' := ar.2.1.a ^^^ gv.1
  (assign_status_nz_for_result { ar.2.1 with a := a' } a', gv.2)

/-- Cpu::bit_test: Z is whether the operand equals the accumulator, then
bits 6 and 7 of P are replaced by bits 6 and 7 of the operand. -/
def bit_test (mem : Memory M) (am : AM M) (cpu : Cpu) (m : M) : Cpu × M :=
  let ar := am cpu m
  let gv := getValue mem ar.1 ar.2.1 ar.2.2
  let p := assign_bit ar.2.1.p STATUS_Z (gv.1 == ar.2.1.a)
  let p := (p &&& 0x3F) ||| (gv.1 &&& 0xC0)
  ({ ar.2.1 with p := p }, gv.2)

/-- Cpu::perform_alu_operation: the shared ADC / SBC / CMP / CPX / CPY
routine.  For subtraction the operand is ones-complemented (8-bit); carry-in
is the C flag when use_carry, a constant 1 for compares. -/
def perform_alu_operation (mem : Memory M) (rNew am : AM M)
    (use_carry discard_result subtraction : Bool) (cpu : Cpu) (m : M) : Cpu × M :=
  let ar := am cpu m
  let rr := rNew ar.2.1 ar.2.2
  let cpu1 := rr.2.1
  let gv1 := getValue mem rr.1 cpu1 rr.2.2
  let thing1 := gv1.1
  let gv2 := getValue mem ar.1 cpu1 gv1.2
  let thing2 := if subtraction then gv2.1 ^^^ 0xFF else gv2.1
  let thing3 := if is_bit_set cpu1.p STATUS_C && use_carry then 1
                else if !use_carry && subtraction then 1
                else 0
  let result16 := thing1 + thing2 + thing3
  let cr := assign_status_cnz_for_result cpu1 result16
  let result := cr.2
  let overflowed := ((thing1 ^^^ result) &&& (thing2 ^^^ result)) &&& 0x80 != 0
  let cpu2 := { cr.1 with p := assign_bit cr.1.p STATUS_V overflowed }
  if discard_result then (cpu2, gv2.2)
  else putValue mem rr.1 cpu2 gv2.2 result

/-- Cpu::arithmetic_shift_left. -/
def arithmetic_shift_left (mem : Memory M) (am : AM M) (cpu : Cpu) (m : M) : Cpu × M :=
  let ar := am cpu m
  let gv := getValue mem ar.1 ar.2.1 ar.2.2
  let carry_out := is_bit_set gv.1 0x80
  let value := (gv.1 * 2) % 256
  let cpu1 := assign_status_nz_for_result ar.2.1 value
  let pv := putValue mem ar.1 cpu1 gv.2 value
  ({ pv.1 with p := assign_bit pv.1.p STATUS_C carry_out }, pv.2)

/-- Cpu::logical_shift_right. -/
def logical_shift_right (mem : Memory M) (am : AM M) (cpu : Cpu) (m : M) : Cpu × M :=
  let ar := am cpu m
  let gv := getValue mem ar.1 ar.2.1 ar.2.2
  let carry_out := is_bit_set gv.1 0x01
  let value := gv.1 / 2
  let cpu1 := assign_status_nz_for_result ar.2.1 value
  let pv := putValue mem ar.1 cpu1 gv.2 value
  ({ pv.1 with p := assign_bit pv.1.p STATUS_C carry_out }, pv.2)

/-- Cpu::rotate_left. -/
def rotate_left (mem : Memory M) (am : AM M) (cpu : Cpu) (m : M) : Cpu × M :=
  let ar := am cpu m
  let gv := getValue mem ar.1 ar.2.1 ar.2.2
  let carry_in := is_bit_set ar.2.1.p STATUS_C
  let carry_out := is_bit_set gv.1 0x80
  let value := (gv.1 * 2) % 256
  let value := if carry_in then value ||| 0x01 else value
  let cpu1 := assign_status_nz_for_result ar.2.1 value
  let pv := putValue mem ar.1 cpu1 gv.2 value
  ({ pv.1 with p := assign_bit pv.1.p STATUS_C carry_out }, pv.2)

/-- Cpu::rotate_right. -/
def rotate_right (mem : Memory M) (am : AM M) (cpu : Cpu) (m : M) : Cpu × M :=
  let ar := am cpu m
  let gv := getValue mem ar.1 ar.2.1 ar.2.2
  let carry_in := is_bit_set ar.2.1.p STATUS_C
  let carry_out := is_bit_set gv.1 0x01
  let value := gv.1 / 2
  let value := if carry_in then value ||| 0x80 else value
  let cpu1 := assign_status_nz_for_result ar.2.1 value
  let pv := putValue mem ar.1 cpu1 gv.2 value
  ({ pv.1 with p := assign_bit pv.1.p STATUS_C carry_out }, pv.2)

/-- Cpu::handle_branch_operation: read the signed 8-bit offset (the cast to
i8 then to u16 sign-extends its low byte), add it to PC with 16-bit wrap,
and take the branch if the condition holds. -/
def handle_branch_operation (mem : Memory M) (should_branch : Bool) (cpu : Cpu) (m : M) :
    Cpu × M :=
  let r := read_pc_and_post_inc mem cpu m
  let offset := r.1 % 256
  let offset16 := if offset < 128 then offset else offset + 0xFF00
  let potential_destination := (r.2.1.pc + offset16) % 65536
  if should_branch then ({ r.2.1 with pc := potential_destination }, r.2.2)
  else (r.2.1, r.2.2)

/-- Cpu::set_nmi_signal is an unimplemented todo panic in the source; it
never returns. -/
def set_nmi_signal (_cpu : Cpu) (_active : Bool) : Option Cpu := none

/-- Cpu::set_irq_signal is an unimplemented todo panic in the source; it
never returns. -/
def set_irq_signal (_cpu : Cpu) (_active : Bool) : Option Cpu := none

/-- The dispatch arms of Cpu::step for opcode bytes 0x00 through 0x0F. -/
def execBlock0 (mem : Memory M) (opcode : Nat) (cpu : Cpu) (m : M) : Option (Cpu × M) :=
  if opcode = 0x00 then none
  else if opcode = 0x01 then some (or_accumulator mem (amZeroPageXIndexedIndirect mem) cpu m)
  else if opcode = 0x05 then some (or_accumulator mem (amZeroPage mem) cpu m)
  else if opcode = 0x06 then some (arithmetic_shift_left mem (amZeroPage mem) cpu m)
  else if opcode = 0x08 then some (push_byte mem cpu m cpu.p)
  else if opcode = 0x09 then some (or_accumulator mem (amImmediate mem) cpu m)
  else if opcode = 0x0A then some (arithmetic_shift_left mem amRegisterA cpu m)
  else if opcode = 0x0D then some (or_accumulator mem (amAbsolute mem) cpu m)
  else if opcode = 0x0E then some (arithmetic_shift_left mem (amAbsolute mem) cpu m)
  else none

/-- The dispatch arms of Cpu::step for opcode bytes 0x10 through 0x1F. -/
def execBlock1 (mem : Memory M) (opcode : Nat) (cpu : Cpu) (m : M) : Option (Cpu × M) :=
  if opcode = 0x10 then some (handle_branch_operation mem (!is_bit_set cpu.p STATUS_N) cpu m)
  else if opcode = 0x11 then some (or_accumulator mem (amZeroPageIndirectYIndexed mem) cpu m)
  else if opcode = 0x15 then some (or_accumulator mem (amZeroPageXIndexed mem) cpu m)
  else if opcode = 0x16 then some (arithmetic_shift_left mem (amZeroPageXIndexed mem) cpu m)
  else if opcode = 0x18 then some ({ cpu with p := clear_bit cpu.p STATUS_C }, m)
  else if opcode = 0x19 then some (or_accumulator mem (amAbsoluteYIndexed mem) cpu m)
  else if opcode = 0x1D then some (or_accumulator mem (amAbsoluteXIndexed mem) cpu m)
  else if opcode = 0x1E then some (arithmetic_shift_left mem (amAbsoluteXIndexed mem) cpu m)
  else none

/-- The dispatch arms of Cpu::step for opcode bytes 0x20 through 0x2F. -/
def execBlock2 (mem : Memory M) (opcode : Nat) (cpu : Cpu) (m : M) : Option (Cpu × M) :=
  if opcode = 0x20 then
    let r1 := read_pc_and_post_inc mem cpu m
    let destination_low := r1.1
    let cpu1 := r1.2.1
    let p1 := push_byte mem cpu1 r1.2.2 (cpu1.pc / 256)
    let p2 := push_byte mem p1.1 p1.2 (cpu1.pc % 256)
    let r2 := read_pc_and_post_inc mem p2.1 p2.2
    some ({ r2.2.1 with pc := destination_low + 256 * r2.1 }, r2.2.2)
  else if opcode = 0x21 then some (and_accumulator mem (amZeroPageXIndexedIndirect mem) cpu m)
  else if opcode = 0x24 then some (bit_test mem (amZeroPage mem) cpu m)
  else if opcode = 0x25 then some (and_accumulator mem (amZeroPage mem) cpu m)
  else if opcode = 0x26 then some (rotate_left mem (amZeroPage mem) cpu m)
  else if opcode = 0x28 then
    let r := pop_byte mem cpu m
    some ({ r.2.1 with p := r.1 ||| STATUS_1 ||| STATUS_B }, r.2.2)
  else if opcode = 0x29 then some (and_accumulator mem (amImmediate mem) cpu m)
  else if opcode = 0x2A then some (rotate_left mem amRegisterA cpu m)
  else if opcode = 0x2C then some (bit_test mem (amAbsolute mem) cpu m)
  else if opcode = 0x2D then some (and_accumulator mem (amAbsolute mem) cpu m)
  else if opcode = 0x2E then some (rotate_left mem (amAbsolute mem) cpu m)
  else none

/-- The dispatch arms of Cpu::step for opcode bytes 0x30 through 0x3F. -/
def execBlock3 (mem : Memory M) (opcode : Nat) (cpu : Cpu) (m : M) : Option (Cpu × M) :=
  if opcode = 0x30 then some (handle_branch_operation mem (is_bit_set cpu.p STATUS_N) cpu m)
  else if opcode = 0x31 then some (and_accumulator mem (amZeroPageIndirectYIndexed mem) cpu m)
  else if opcode = 0x35 then some (and_accumulator mem (amZeroPageXIndexed mem) cpu m)
  else if opcode = 0x36 then some (rotate_left mem (amZeroPageXIndexed mem) cpu m)
  else if opcode = 0x38 then some ({ cpu with p := set_bit cpu.p STATUS_C }, m)
  else if opcode = 0x39 then some (and_accumulator mem (amAbsoluteYIndexed mem) cpu m)
  else if opcode = 0x3D then some (and_accumulator mem (amAbsoluteXIndexed mem) cpu m)
  else if opcode = 0x3E then some (rotate_left mem (amAbsoluteXIndexed mem) cpu m)
  else none

/-- The dispatch arms of Cpu::step for opcode bytes 0x40 through 0x4F. -/
def execBlock4 (mem : Memory M) (opcode : Nat) (cpu : Cpu) (m : M) : Option (Cpu × M) :=
  if opcode = 0x41 then some (xor_accumulator mem (amZeroPageXIndexedIndirect mem) cpu m)
  else if opcode = 0x45 then some (xor_accumulator mem (amZeroPage mem) cpu m)
  else if opcode = 0x46 then some (logical_shift_right mem (amZeroPage mem) cpu m)
  else if opcode = 0x48 then some (push_byte mem cpu m cpu.a)
  else if opcode = 0x49 then some (xor_accumulator mem (amImmediate mem) cpu m)
  else if opcode = 0x4A then some (logical_shift_right mem amRegisterA cpu m)
  else if opcode = 0x4C then
    let ar := amAbsolute mem cpu m
    some ({ ar.2.1 with pc := ar.1.get_address }, ar.2.2)
  else if opcode = 0x4D then some (xor_accumulator mem (amAbsolute mem) cpu m)
  else if opcode = 0x4E then some (logical_shift_right mem (amAbsolute mem) cpu m)
  else none

/-- The dispatch arms of Cpu::step for opcode bytes 0x50 through 0x5F. -/
def execBlock5 (mem : Memory M) (opcode : Nat) (cpu : Cpu) (m : M) : Option (Cpu × M) :=
  if opcode = 0x50 then some (handle_branch_operation mem (!is_bit_set cpu.p STATUS_V) cpu m)
  else if opcode = 0x51 then some (xor_accumulator mem (amZeroPageIndirectYIndexed mem) cpu m)
  else if opcode = 0x55 then some (xor_accumulator mem (amZeroPageXIndexed mem) cpu m)
  else if opcode = 0x56 then some (logical_shift_right mem (amZeroPageXIndexed mem) cpu m)
  else if opcode = 0x58 then some ({ cpu with p := clear_bit cpu.p STATUS_I }, m)
  else if opcode = 0x59 then some (xor_accumulator mem (amAbsoluteYIndexed mem) cpu m)
  else if opcode = 0x5D then some (xor_accumulator mem (amAbsoluteXIndexed mem) cpu m)
  else if opcode = 0x5E then some (logical_shift_right mem (amAbsoluteXIndexed mem) cpu m)
  else none

/-- The dispatch arms of Cpu::step for opcode bytes 0x60 through 0x6F. -/
def execBlock6 (mem : Memory M) (opcode : Nat) (cpu : Cpu) (m : M) : Option (Cpu × M) :=
  if opcode = 0x60 then
    let r1 := pop_byte mem cpu m
    let r2 := pop_byte mem r1.2.1 r1.2.2
    some ({ r2.2.1 with pc := (r1.1 + 256 * r2.1 + 1) % 65536 }, r2.2.2)
  else if opcode = 0x61 then
 some (perform_alu_operation mem amRegisterA (amZeroPageXIndexedIndirect mem)
      true false false cpu m)
  else if opcode = 0x65 then some (perform_alu_operation mem amRegisterA (amZeroPage mem) true false false cpu m)
  else if opcode = 0x66 then some (rotate_right mem (amZeroPage mem) cpu m)
  else if opcode = 0x68 then
    let r := pop_byte mem cpu m
    some (assign_status_nz_for_result { r.2.1 with a := r.1 } r.1, r.2.2)
  else if opcode = 0x69 then some (perform_alu_operation mem amRegisterA (amImmediate mem) true false false cpu m)
  else if opcode = 0x6A then some (rotate_right mem amRegisterA cpu m)
  else if opcode = 0x6C then
    let ar := amAbsolute mem cpu m
    let address_of_address := ar.1.get_address
    let lo := mem.read ar.2.2 address_of_address
    let hi := mem.read lo.2 ((address_of_address + 1) % 65536)
    some ({ ar.2.1 with pc := lo.1 + 256 * hi.1 }, hi.2)
  else if opcode = 0x6D then some (perform_alu_operation mem amRegisterA (amAbsolute mem) true false false cpu m)
  else if opcode = 0x6E then some (rotate_right mem (amAbsolute mem) cpu m)
  else none

/-- The dispatch arms of Cpu::step for opcode bytes 0x70 through 0x7F. -/
def execBlock7 (mem : Memory M) (opcode : Nat) (cpu : Cpu) (m : M) : Option (Cpu × M) :=
  if opcode = 0x70 then some (handle_branch_operation mem (is_bit_set cpu.p STATUS_V) cpu m)
  else if opcode = 0x71 then
 some (perform_alu_operation mem amRegisterA (amZeroPageIndirectYIndexed mem)
      true false false cpu m)
  else if opcode = 0x75 then
 some (perform_alu_operation mem amRegisterA (amZeroPageXIndexed mem)
      true false false cpu m)
  else if opcode = 0x76 then some (rotate_right mem (amZeroPageXIndexed mem) cpu m)
  else if opcode = 0x78 then some ({ cpu with p := set_bit cpu.p STATUS_I }, m)
  else if opcode = 0x79 then
 some (perform_alu_operation mem amRegisterA (amAbsoluteYIndexed mem)
      true false false cpu m)
  else if opcode = 0x7D then
 some (perform_alu_operation mem amRegisterA (amAbsoluteXIndexed mem)
      true false false cpu m)
  else if opcode = 0x7E then some (rotate_right mem (amAbsoluteXIndexed mem) cpu m)
  else none

/-- The dispatch arms of Cpu::step for opcode bytes 0x80 through 0x8F. -/
def execBlock8 (mem : Memory M) (opcode : Nat) (cpu : Cpu) (m : M) : Option (Cpu × M) :=
  if opcode = 0x81 then some (store mem Loc.regA (amZeroPageXIndexedIndirect mem) cpu m)
  else if opcode = 0x84 then some (store mem Loc.regY (amZeroPage mem) cpu m)
  else if opcode = 0x85 then some (store mem Loc.regA (amZeroPage mem) cpu m)
  else if opcode = 0x86 then some (store mem Loc.regX (amZeroPage mem) cpu m)
  else if opcode = 0x88 then some (decrement mem amRegisterY cpu m)
  else if opcode = 0x8A then some ({ assign_status_nz_for_result cpu cpu.x with a := cpu.x }, m)
  else if opcode = 0x8C then some (store mem Loc.regY (amAbsolute mem) cpu m)
  else if opcode = 0x8D then some (store mem Loc.regA (amAbsolute mem) cpu m)
  else if opcode = 0x8E then some (store mem Loc.regX (amAbsolute mem) cpu m)
  else none

/-- The dispatch arms of Cpu::step for opcode bytes 0x90 through 0x9F. -/
def execBlock9 (mem : Memory M) (opcode : Nat) (cpu : Cpu) (m : M) : Option (Cpu × M) :=
  if opcode = 0x90 then some (handle_branch_operation mem (!is_bit_set cpu.p STATUS_C) cpu m)
  else if opcode = 0x91 then some (store mem Loc.regA (amZeroPageIndirectYIndexed mem) cpu m)
  else if opcode = 0x94 then some (store mem Loc.regY (amZeroPageXIndexed mem) cpu m)
  else if opcode = 0x95 then some (store mem Loc.regA (amZeroPageXIndexed mem) cpu m)
  else if opcode = 0x96 then some (store mem Loc.regX (amZeroPageYIndexed mem) cpu m)
  else if opcode = 0x98 then some ({ assign_status_nz_for_result cpu cpu.y with a := cpu.y }, m)
  else if opcode = 0x99 then some (store mem Loc.regA (amAbsoluteYIndexed mem) cpu m)
  else if opcode = 0x9A then some ({ cpu with s := cpu.x }, m)
  else if opcode = 0x9D then some (store mem Loc.regA (amAbsoluteXIndexed mem) cpu m)
  else none

/-- The dispatch arms of Cpu::step for opcode bytes 0xA0 through 0xAF. -/
def execBlockA (mem : Memory M) (opcode : Nat) (cpu : Cpu) (m : M) : Option (Cpu × M) :=
  if opcode = 0xA0 then some (load mem Loc.regY (amImmediate mem) cpu m)
  else if opcode = 0xA1 then some (load mem Loc.regA (amZeroPageXIndexedIndirect mem) cpu m)
  else if opcode = 0xA2 then some (load mem Loc.regX (amImmediate mem) cpu m)
  else if opcode = 0xA4 then some (load mem Loc.regY (amZeroPage mem) cpu m)
  else if opcode = 0xA5 then some (load mem Loc.regA (amZeroPage mem) cpu m)
  else if opcode = 0xA6 then some (load mem Loc.regX (amZeroPage mem) cpu m)
  else if opcode = 0xA8 then some ({ assign_status_nz_for_result cpu cpu.a with y := cpu.a }, m)
  else if opcode = 0xA9 then some (load mem Loc.regA (amImmediate mem) cpu m)
  else if opcode = 0xAA then some ({ assign_status_nz_for_result cpu cpu.a with x := cpu.a }, m)
  else if opcode = 0xAC then some (load mem Loc.regY (amAbsolute mem) cpu m)
  else if opcode = 0xAD then some (load mem Loc.regA (amAbsolute mem) cpu m)
  else if opcode = 0xAE then some (load mem Loc.regX (amAbsolute mem) cpu m)
  else none

/-- The dispatch arms of Cpu::step for opcode bytes 0xB0 through 0xBF. -/
def execBlockB (mem : Memory M) (opcode : Nat) (cpu : Cpu) (m : M) : Option (Cpu × M) :=
  if opcode = 0xB0 then some (handle_branch_operation mem (is_bit_set cpu.p STATUS_C) cpu m)
  else if opcode = 0xB1 then some (load mem Loc.regA (amZeroPageIndirectYIndexed mem) cpu m)
  else if opcode = 0xB4 then some (load mem Loc.regY (amZeroPageXIndexed mem) cpu m)
  else if opcode = 0xB5 then some (load mem Loc.regA (amZeroPageXIndexed mem) cpu m)
  else if opcode = 0xB6 then some (load mem Loc.regX (amZeroPageYIndexed mem) cpu m)
  else if opcode = 0xB8 then some ({ cpu with p := clear_bit cpu.p STATUS_V }, m)
  else if opcode = 0xB9 then some (load mem Loc.regA (amAbsoluteYIndexed mem) cpu m)
  else if opcode = 0xBA then some ({ assign_status_nz_for_result cpu cpu.s with x := cpu.s }, m)
  else if opcode = 0xBC then some (load mem Loc.regY (amAbsoluteXIndexed mem) cpu m)
  else if opcode = 0xBD then some (load mem Loc.regA (amAbsoluteXIndexed mem) cpu m)
  else if opcode = 0xBE then some (load mem Loc.regY (amAbsoluteXIndexed mem) cpu m)
  else none

/-- The dispatch arms of Cpu::step for opcode bytes 0xC0 through 0xCF. -/
def execBlockC (mem : Memory M) (opcode : Nat) (cpu : Cpu) (m : M) : Option (Cpu × M) :=
  if opcode = 0xC0 then some (perform_alu_operation mem amRegisterY (amImmediate mem) false true true cpu m)
  else if opcode = 0xC1 then
 some (perform_alu_operation mem amRegisterA (amZeroPageXIndexedIndirect mem)
      false true true cpu m)
  else if opcode = 0xC4 then some (perform_alu_operation mem amRegisterY (amZeroPage mem) false true true cpu m)
  else if opcode = 0xC5 then some (perform_alu_operation mem amRegisterA (amZeroPage mem) false true true cpu m)
  else if opcode = 0xC6 then some (decrement mem (amZeroPage mem) cpu m)
  else if opcode = 0xC8 then some (increment mem amRegisterY cpu m)
  else if opcode = 0xC9 then some (perform_alu_operation mem amRegisterA (amImmediate mem) false true true cpu m)
  else if opcode = 0xCA then some (decrement mem amRegisterX cpu m)
  else if opcode = 0xCC then some (perform_alu_operation mem amRegisterY (amAbsolute mem) false true true cpu m)
  else if opcode = 0xCD then some (perform_alu_operation mem amRegisterA (amAbsolute mem) false true true cpu m)
  else if opcode = 0xCE then some (decrement mem (amAbsolute mem) cpu m)
  else none

/-- The dispatch arms of Cpu::step for opcode bytes 0xD0 through 0xDF. -/
def execBlockD (mem : Memory M) (opcode : Nat) (cpu : Cpu) (m : M) : Option (Cpu × M) :=
  if opcode = 0xD0 then some (handle_branch_operation mem (!is_bit_set cpu.p STATUS_Z) cpu m)
  else if opcode = 0xD1 then
 some (perform_alu_operation mem amRegisterA (amZeroPageIndirectYIndexed mem)
      false true true cpu m)
  else if opcode = 0xD5 then
 some (perform_alu_operation mem amRegisterA (amZeroPageXIndexed mem)
      false true true cpu m)
  else if opcode = 0xD6 then some (decrement mem (amZeroPageXIndexed mem) cpu m)
  else if opcode = 0xD8 then some ({ cpu with p := clear_bit cpu.p STATUS_D }, m)
  else if opcode = 0xD9 then
 some (perform_alu_operation mem amRegisterA (amAbsoluteYIndexed mem)
      false true true cpu m)
  else if opcode = 0xDD then
 some (perform_alu_operation mem amRegisterA (amAbsoluteXIndexed mem)
      false true true cpu m)
  else if opcode = 0xDE then some (decrement mem (amAbsoluteXIndexed mem) cpu m)
  else none

/-- The dispatch arms of Cpu::step for opcode bytes 0xE0 through 0xEF. -/
def execBlockE (mem : Memory M) (opcode : Nat) (cpu : Cpu) (m : M) : Option (Cpu × M) :=
  if opcode = 0xE0 then some (perform_alu_operation mem amRegisterX (amImmediate mem) false true true cpu m)
  else if opcode = 0xE1 then
 some (perform_alu_operation mem amRegisterA (amZeroPageXIndexedIndirect mem)
      true false true cpu m)
  else if opcode = 0xE4 then some (perform_alu_operation mem amRegisterX (amZeroPage mem) false true true cpu m)
  else if opcode = 0xE5 then some (perform_alu_operation mem amRegisterA (amZeroPage mem) true false true cpu m)
  else if opcode = 0xE6 then some (increment mem (amZeroPage mem) cpu m)
  else if opcode = 0xE8 then some (increment mem amRegisterX cpu m)
  else if opcode = 0xE9 then some (perform_alu_operation mem amRegisterA (amImmediate mem) true false true cpu m)
  else if opcode = 0xEA then some (cpu, m)
  else if opcode = 0xEC then some (perform_alu_operation mem amRegisterX (amAbsolute mem) false true true cpu m)
  else if opcode = 0xED then some (perform_alu_operation mem amRegisterA (amAbsolute mem) true false true cpu m)
  else if opcode = 0xEE then some (increment mem (amAbsolute mem) cpu m)
  else none

/-- The dispatch arms of Cpu::step for opcode bytes 0xF0 through 0xFF. -/
def execBlockF (mem : Memory M) (opcode : Nat) (cpu : Cpu) (m : M) : Option (Cpu × M) :=
  if opcode = 0xF0 then some (handle_branch_operation mem (is_bit_set cpu.p STATUS_Z) cpu m)
  else if opcode = 0xF1 then
 some (perform_alu_operation mem amRegisterA (amZeroPageIndirectYIndexed mem)
      true false true cpu m)
  else if opcode = 0xF5 then
 some (perform_alu_operation mem amRegisterA (amZeroPageXIndexed mem)
      true false true cpu m)
  else if opcode = 0xF6 then some (increment mem (amZeroPageXIndexed mem) cpu m)
  else if opcode = 0xF8 then some ({ cpu with p := set_bit cpu.p STATUS_D }, m)
  else if opcode = 0xF9 then
 some (perform_alu_operation mem amRegisterA (amAbsoluteYIndexed mem)
      true false true cpu m)
  else if opcode = 0xFD then
 some (perform_alu_operation mem amRegisterA (amAbsoluteXIndexed mem)
      true false true cpu m)
  else if opcode = 0xFE then some (increment mem (amAbsoluteXIndexed mem) cpu m)
  else none

/-- The dispatch match inside Cpu::step, on the fetched opcode byte, split
into one chain of opcode-equality tests per high nibble (the split keeps
terms shallow; the arms are the source match arms in order).  The BRK arm
(0x00) and the unknown-opcode arm both panic in the source and are
embedded as none. -/
def exec (mem : Memory M) (opcode : Nat) (cpu : Cpu) (m : M) : Option (Cpu × M) :=
  if opcode < 0x10 then execBlock0 mem opcode cpu m
  else if opcode < 0x20 then execBlock1 mem opcode cpu m
  else if opcode < 0x30 then execBlock2 mem opcode cpu m
  else if opcode < 0x40 then execBlock3 mem opcode cpu m
  else if opcode < 0x50 then execBlock4 mem opcode cpu m
  else if opcode < 0x60 then execBlock5 mem opcode cpu m
  else if opcode < 0x70 then execBlock6 mem opcode cpu m
  else if opcode < 0x80 then execBlock7 mem opcode cpu m
  else if opcode < 0x90 then execBlock8 mem opcode cpu m
  else if opcode < 0xA0 then execBlock9 mem opcode cpu m
  else if opcode < 0xB0 then execBlockA mem opcode cpu m
  else if opcode < 0xC0 then execBlockB mem opcode cpu m
  else if opcode < 0xD0 then execBlockC mem opcode cpu m
  else if opcode < 0xE0 then execBlockD mem opcode cpu m
  else if opcode < 0xF0 then execBlockE mem opcode cpu m
  else if opcode < 0x100 then execBlockF mem opcode cpu m
  else none
/-- Cpu::step: fetch the opcode at PC (incrementing PC) and dispatch. -/
def step (mem : Memory M) (cpu : Cpu) (m : M) : Option (Cpu × M) :=
  let r := read_pc_and_post_inc mem cpu m
  exec mem r.1 r.2.1 r.2.2

/-- A sequence of n calls to Cpu::step; none as soon as one panics. -/
def runSteps (mem : Memory M) (n : Nat) (cpu : Cpu) (m : M) : Option (Cpu × M) :=
  match n with
  | 0 => some (cpu, m)
  | n + 1 => (step mem cpu m).bind (fun r => runSteps mem n r.1 r.2)

/-! Bit-level helper lemmas about the flag plumbing. -/

theorem is_bit_set_two_pow (x i : Nat) : is_bit_set x (2 ^ i) = x.testBit i := by
  unfold is_bit_set
  rw [Nat.and_two_pow]
  cases h : x.testBit i
  · simp only [Bool.toNat_false, Nat.zero_mul]
    exact beq_eq_false_iff_ne.mpr (Nat.two_pow_pos i).ne
  · simp

theorem is_bit_set_C (x : Nat) : is_bit_set x STATUS_C = x.testBit 0 := is_bit_set_two_pow x 0

theorem is_bit_set_Z (x : Nat) : is_bit_set x STATUS_Z = x.testBit 1 := is_bit_set_two_pow x 1

theorem is_bit_set_I (x : Nat) : is_bit_set x STATUS_I = x.testBit 2 := is_bit_set_two_pow x 2

theorem is_bit_set_D (x : Nat) : is_bit_set x STATUS_D = x.testBit 3 := is_bit_set_two_pow x 3

theorem is_bit_set_B (x : Nat) : is_bit_set x STATUS_B = x.testBit 4 := is_bit_set_two_pow x 4

theorem is_bit_set_1 (x : Nat) : is_bit_set x STATUS_1 = x.testBit 5 := is_bit_set_two_pow x 5

theorem is_bit_set_V (x : Nat) : is_bit_set x STATUS_V = x.testBit 6 := is_bit_set_two_pow x 6

theorem is_bit_set_N (x : Nat) : is_bit_set x STATUS_N = x.testBit 7 := is_bit_set_two_pow x 7

theorem is_bit_set_sign (x : Nat) : is_bit_set x BYTE_SIGN_BIT = x.testBit 7 :=
  is_bit_set_two_pow x 7

theorem is_bit_set_carried (x : Nat) : is_bit_set x BYTE_CARRIED_BIT = x.testBit 8 :=
  is_bit_set_two_pow x 8

/-- Bits below 8 of assign_bit: the masked bits become the flag, all other
low bits are untouched.  (Above bit 7 the u8 complement in clear_bit would
also clear, but P flags only live in the low byte.) -/
theorem testBit_assign_bit (p b : Nat) (w : Bool) (i : Nat) (hi : i < 8) :
    (assign_bit p b w).testBit i = if b.testBit i then w else p.testBit i := by
  have h255 : (0xFF : Nat).testBit i = true := by interval_cases i <;> decide
  cases w <;>
    simp only [assign_bit, set_bit, clear_bit, if_true, if_false, Bool.false_eq_true,
      Nat.testBit_lor, Nat.testBit_land, Nat.testBit_xor, h255] <;>
    cases hb : b.testBit i <;> cases hp : p.testBit i <;> simp

theorem testBit_lt_512 (x : Nat) (h : x < 512) : x.testBit 8 = decide (x > 255) := by
  rw [Nat.testBit_to_div_mod]
  rcases Nat.lt_or_ge x 256 with h' | h'
  · have : x / 2 ^ 8 = 0 := Nat.div_eq_of_lt h'
    simp [this]
    omega
  · have : x / 2 ^ 8 = 1 := by omega
    simp [this]
    omega

theorem bne_land_sign (x : Nat) : ((x &&& 0x80 != 0) = true) ↔ x.testBit 7 = true := by
  rw [show ((0x80:Nat) = 2^7) from by norm_num, Nat.and_two_pow]
  cases h : x.testBit 7 <;> simp

/-- C2: for every ADC or SBC execution (register A target, carry used,
result kept), with a the prior accumulator, b the operand byte
(ones-complemented for SBC) and c_in the carry-in bit, the new accumulator
is r8 = (a + b + c_in) mod 256, C holds iff the 16-bit sum exceeds 0xFF,
Z iff r8 = 0, N iff bit 7 of r8, and V iff bit 7 of
(a XOR r8) AND (b XOR r8). -/
theorem alu_adc_sbc_flags
    {M : Type} (mem : Memory M) (am : AM M) (subtraction : Bool)
    (cpu : Cpu) (m : M) (loc : Loc) (cpu1 : Cpu) (m1 : M) (b0 : Nat) (m2 : M)
    (bv c_in r16 r8 : Nat)
    (hAM : am cpu m = (loc, cpu1, m1))
    (hGet : getValue mem loc cpu1 m1 = (b0, m2))
    (ha : cpu1.a = cpu.a) (hp : cpu1.p = cpu.p)
    (ha8 : cpu.a < 256) (hb8 : b0 < 256)
    (hb : bv = if subtraction then b0 ^^^ 0xFF else b0)
    (hcin : c_in = if is_bit_set cpu.p STATUS_C then 1 else 0)
    (hr16 : r16 = cpu.a + bv + c_in)
    (hr8 : r8 = r16 % 256) :
    (perform_alu_operation mem amRegisterA am true false subtraction cpu m).1.a = r8 ∧
    (perform_alu_operation mem amRegisterA am true false subtraction cpu m).2 = m2 ∧
    (is_bit_set (perform_alu_operation mem amRegisterA am true false subtraction cpu m).1.p
        STATUS_C = true ↔ r16 > 0xFF) ∧
    (is_bit_set (perform_alu_operation mem amRegisterA am true false subtraction cpu m).1.p
        STATUS_Z = true ↔ r8 = 0) ∧
    (is_bit_set (perform_alu_operation mem amRegisterA am true false subtraction cpu m).1.p
        STATUS_N = true ↔ Nat.testBit r8 7 = true) ∧
    (is_bit_set (perform_alu_operation mem amRegisterA am true false subtraction cpu m).1.p
        STATUS_V = true ↔
      Nat.testBit ((cpu.a ^^^ r8) &&& (bv ^^^ r8)) 7 = true) := by
  subst hr8 hr16 hcin hb
  have hgv1 : getValue mem Loc.regA cpu1 m1 = (cpu1.a, m1) := rfl
  have hout : perform_alu_operation mem amRegisterA am true false subtraction cpu m =
      ({ cpu1 with
          a := (cpu.a + (if subtraction then b0 ^^^ 0xFF else b0) +
                 (if is_bit_set cpu.p STATUS_C then 1 else 0)) % 256,
          p := assign_bit
            (assign_bit
              (assign_bit (assign_bit cpu.p STATUS_C
                  (is_bit_set (cpu.a + (if subtraction then b0 ^^^ 0xFF else b0) +
                    (if is_bit_set cpu.p STATUS_C then 1 else 0)) BYTE_CARRIED_BIT))
                STATUS_Z
                (((cpu.a + (if subtraction then b0 ^^^ 0xFF else b0) +
                    (if is_bit_set cpu.p STATUS_C then 1 else 0)) % 256) == 0))
              STATUS_N
              (is_bit_set ((cpu.a + (if subtraction then b0 ^^^ 0xFF else b0) +
                  (if is_bit_set cpu.p STATUS_C then 1 else 0)) % 256) BYTE_SIGN_BIT))
            STATUS_V
            (((cpu.a ^^^ ((cpu.a + (if subtraction then b0 ^^^ 0xFF else b0) +
                  (if is_bit_set cpu.p STATUS_C then 1 else 0)) % 256)) &&&
               (((if subtraction then b0 ^^^ 0xFF else b0)) ^^^
                 ((cpu.a + (if subtraction then b0 ^^^ 0xFF else b0) +
                  (if is_bit_set cpu.p STATUS_C then 1 else 0)) % 256))) &&& 0x80 != 0) },
        m2) := by
    unfold perform_alu_operation
    rw [hAM]
    dsimp only [amRegisterA]
    rw [hgv1]
    dsimp only
    rw [hGet]
    dsimp only
    rw [ha, hp]
    cases hC : is_bit_set cpu.p STATUS_C <;>
      simp [hC, ha, hp, assign_status_cnz_for_result, assign_status_nz_for_result, putValue]
  rw [hout]
  have hb' : (if subtraction then b0 ^^^ 0xFF else b0) < 256 := by
    split
    · exact Nat.xor_lt_two_pow (n := 8) hb8 (by norm_num)
    · exact hb8
  have h512 : cpu.a + (if subtraction then b0 ^^^ 0xFF else b0) +
      (if is_bit_set cpu.p STATUS_C then 1 else 0) < 512 := by
    have : (if is_bit_set cpu.p STATUS_C then (1:Nat) else 0) <= 1 := by split <;> omega
    omega
  refine ⟨rfl, rfl, ?_, ?_, ?_, ?_⟩
  · rw [is_bit_set_C]
    simp only [testBit_assign_bit _ _ _ 0 (by norm_num)]
    simp only [show STATUS_V.testBit 0 = false from by decide,
      show STATUS_N.testBit 0 = false from by decide,
      show STATUS_Z.testBit 0 = false from by decide,
      show STATUS_C.testBit 0 = true from by decide,
      eq_self_iff_true, if_true, Bool.false_eq_true, if_false]
    rw [is_bit_set_carried]
    rw [testBit_lt_512 _ h512]
    simp
  · rw [is_bit_set_Z]
    simp only [testBit_assign_bit _ _ _ 1 (by norm_num)]
    simp only [show STATUS_V.testBit 1 = false from by decide,
      show STATUS_N.testBit 1 = false from by decide,
      show STATUS_Z.testBit 1 = true from by decide,
      eq_self_iff_true, if_true, Bool.false_eq_true, if_false]
    simp
  · rw [is_bit_set_N]
    simp only [testBit_assign_bit _ _ _ 7 (by norm_num)]
    simp only [show STATUS_V.testBit 7 = false from by decide,
      show STATUS_N.testBit 7 = true from by decide,
      eq_self_iff_true, if_true, Bool.false_eq_true, if_false]
    rw [is_bit_set_sign]
  · rw [is_bit_set_V]
    simp only [testBit_assign_bit _ _ _ 6 (by norm_num),
      show STATUS_V.testBit 6 = true from by decide, eq_self_iff_true, if_true]
    exact bne_land_sign _


/-- The concrete memory used by witnesses and counterexamples: a pure
function of the address, with writes ignored. -/
def romMem (f : Nat → Nat) : Memory Unit :=
  { read := fun m a => (f a, m), write := fun m _ _ => m }

/-- Program bytes for the SBC immediate scenario: SBC with operand 0xF0 at
0x8000. -/
def sbcProgram : Nat → Nat :=
  fun a => if a = 0x8000 then 0xE9 else if a = 0x8001 then 0xF0 else 0

/-- CPU state before the SBC scenario: A = 0x50, carry set (P = 0x21),
PC at the instruction. -/
def sbcCpu : Cpu := { a := 0x50, x := 0, y := 0, s := 0xFF, p := 0x21, pc := 0x8000 }

/-- Witness for the ADC/SBC flag theorem: the SBC immediate scenario with
A = 0x50, operand 0xF0, carry in. -/
theorem alu_adc_sbc_flags_witness :
    amImmediate (romMem sbcProgram) { sbcCpu with pc := 0x8001 } () =
      (Loc.imm 0xF0, { sbcCpu with pc := 0x8002 }, ()) ∧
    (perform_alu_operation (romMem sbcProgram) amRegisterA
        (amImmediate (romMem sbcProgram)) true false true { sbcCpu with pc := 0x8001 } ()).1.a =
      0x60 := by
  refine ⟨by decide, ?_⟩
  have h := alu_adc_sbc_flags (romMem sbcProgram) (amImmediate (romMem sbcProgram)) true
    { sbcCpu with pc := 0x8001 } () (Loc.imm 0xF0) { sbcCpu with pc := 0x8002 } () 0xF0 ()
    0x0F 1 0x60 0x60 (by decide) (by decide) rfl rfl (by decide) (by norm_num)
    (by decide) (by decide) (by decide) (by norm_num)
  exact h.1


theorem t5_set_bit (p b : Nat) (h : p.testBit 5 = true) : (set_bit p b).testBit 5 = true := by
  simp [set_bit, Nat.testBit_lor, h]

theorem t5_clear_bit (p b : Nat) (hb : (b ^^^ 0xFF).testBit 5 = true)
    (h : p.testBit 5 = true) : (clear_bit p b).testBit 5 = true := by
  simp [clear_bit, Nat.testBit_land, h, hb]

theorem t5_assign_bit (p b : Nat) (w : Bool) (hb : b.testBit 5 = false)
    (h : p.testBit 5 = true) : (assign_bit p b w).testBit 5 = true := by
  rw [testBit_assign_bit p b w 5 (by norm_num), hb]
  simpa using h

theorem nz_p5 (cpu : Cpu) (r : Nat) (h : cpu.p.testBit 5 = true) :
    (assign_status_nz_for_result cpu r).p.testBit 5 = true := by
  unfold assign_status_nz_for_result
  exact t5_assign_bit _ _ _ (by decide) (t5_assign_bit _ _ _ (by decide) h)

theorem plp_p5 (v : Nat) : (v ||| STATUS_1 ||| STATUS_B).testBit 5 = true := by
  simp [Nat.testBit_lor, show STATUS_1.testBit 5 = true from by decide]

theorem t5_bit_test (q r : Nat) (h : q.testBit 5 = true) :
    ((q &&& 0x3F) ||| (r &&& 0xC0)).testBit 5 = true := by
  simp [Nat.testBit_lor, Nat.testBit_land, h,
    show Nat.testBit 0x3F 5 = true from by decide]

theorem branch_p5 {M : Type} (mem : Memory M) (b : Bool) (cpu : Cpu) (m : M)
    (h : cpu.p.testBit 5 = true) :
    ((handle_branch_operation mem b cpu m).1).p.testBit 5 = true := by
  cases b <;> exact h

/-- Every successful dispatch in block 0x00-0x0F preserves bit 5 of P. -/
theorem execBlock0_p5 {M : Type} (mem : Memory M) (op : Nat) (cpu : Cpu) (m : M)
    (out : Cpu × M) (h5 : cpu.p.testBit 5 = true)
    (h : execBlock0 mem op cpu m = some out) : out.1.p.testBit 5 = true := by
  unfold execBlock0 at h
  by_cases hop0 : op = 0x00
  · rw [if_pos hop0] at h
    exact Option.noConfusion h
  rw [if_neg hop0] at h
  by_cases hop1 : op = 0x01
  · rw [if_pos hop1] at h
    injection h with h; subst h; exact nz_p5 _ _ h5
  rw [if_neg hop1] at h
  by_cases hop2 : op = 0x05
  · rw [if_pos hop2] at h
    injection h with h; subst h; exact nz_p5 _ _ h5
  rw [if_neg hop2] at h
  by_cases hop3 : op = 0x06
  · rw [if_pos hop3] at h
    injection h with h; subst h; exact t5_assign_bit _ _ _ (by decide) (nz_p5 _ _ h5)
  rw [if_neg hop3] at h
  by_cases hop4 : op = 0x08
  · rw [if_pos hop4] at h
    injection h with h; subst h; exact h5
  rw [if_neg hop4] at h
  by_cases hop5 : op = 0x09
  · rw [if_pos hop5] at h
    injection h with h; subst h; exact nz_p5 _ _ h5
  rw [if_neg hop5] at h
  by_cases hop6 : op = 0x0A
  · rw [if_pos hop6] at h
    injection h with h; subst h; exact t5_assign_bit _ _ _ (by decide) (nz_p5 _ _ h5)
  rw [if_neg hop6] at h
  by_cases hop7 : op = 0x0D
  · rw [if_pos hop7] at h
    injection h with h; subst h; exact nz_p5 _ _ h5
  rw [if_neg hop7] at h
  by_cases hop8 : op = 0x0E
  · rw [if_pos hop8] at h
    injection h with h; subst h; exact t5_assign_bit _ _ _ (by decide) (nz_p5 _ _ h5)
  rw [if_neg hop8] at h
  exact Option.noConfusion h

/-- Every successful dispatch in block 0x10-0x1F preserves bit 5 of P. -/
theorem execBlock1_p5 {M : Type} (mem : Memory M) (op : Nat) (cpu : Cpu) (m : M)
    (out : Cpu × M) (h5 : cpu.p.testBit 5 = true)
    (h : execBlock1 mem op cpu m = some out) : out.1.p.testBit 5 = true := by
  unfold execBlock1 at h
  by_cases hop0 : op = 0x10
  · rw [if_pos hop0] at h
    injection h with h; subst h; exact branch_p5 _ _ _ _ h5
  rw [if_neg hop0] at h
  by_cases hop1 : op = 0x11
  · rw [if_pos hop1] at h
    injection h with h; subst h; exact nz_p5 _ _ h5
  rw [if_neg hop1] at h
  by_cases hop2 : op = 0x15
  · rw [if_pos hop2] at h
    injection h with h; subst h; exact nz_p5 _ _ h5
  rw [if_neg hop2] at h
  by_cases hop3 : op = 0x16
  · rw [if_pos hop3] at h
    injection h with h; subst h; exact t5_assign_bit _ _ _ (by decide) (nz_p5 _ _ h5)
  rw [if_neg hop3] at h
  by_cases hop4 : op = 0x18
  · rw [if_pos hop4] at h
    injection h with h; subst h; exact t5_clear_bit _ _ (by decide) h5
  rw [if_neg hop4] at h
  by_cases hop5 : op = 0x19
  · rw [if_pos hop5] at h
    injection h with h; subst h; exact nz_p5 _ _ h5
  rw [if_neg hop5] at h
  by_cases hop6 : op = 0x1D
  · rw [if_pos hop6] at h
    injection h with h; subst h; exact nz_p5 _ _ h5
  rw [if_neg hop6] at h
  by_cases hop7 : op = 0x1E
  · rw [if_pos hop7] at h
    injection h with h; subst h; exact t5_assign_bit _ _ _ (by decide) (nz_p5 _ _ h5)
  rw [if_neg hop7] at h
  exact Option.noConfusion h

/-- Every successful dispatch in block 0x20-0x2F preserves bit 5 of P. -/
theorem execBlock2_p5 {M : Type} (mem : Memory M) (op : Nat) (cpu : Cpu) (m : M)
    (out : Cpu × M) (h5 : cpu.p.testBit 5 = true)
    (h : execBlock2 mem op cpu m = some out) : out.1.p.testBit 5 = true := by
  unfold execBlock2 at h
  by_cases hop0 : op = 0x20
  · rw [if_pos hop0] at h
    injection h with h; subst h; exact h5
  rw [if_neg hop0] at h
  by_cases hop1 : op = 0x21
  · rw [if_pos hop1] at h
    injection h with h; subst h; exact nz_p5 _ _ h5
  rw [if_neg hop1] at h
  by_cases hop2 : op = 0x24
  · rw [if_pos hop2] at h
    injection h with h; subst h; exact t5_bit_test _ _ (t5_assign_bit _ _ _ (by decide) h5)
  rw [if_neg hop2] at h
  by_cases hop3 : op = 0x25
  · rw [if_pos hop3] at h
    injection h with h; subst h; exact nz_p5 _ _ h5
  rw [if_neg hop3] at h
  by_cases hop4 : op = 0x26
  · rw [if_pos hop4] at h
    injection h with h; subst h; exact t5_assign_bit _ _ _ (by decide) (nz_p5 _ _ h5)
  rw [if_neg hop4] at h
  by_cases hop5 : op = 0x28
  · rw [if_pos hop5] at h
    injection h with h; subst h; exact plp_p5 _
  rw [if_neg hop5] at h
  by_cases hop6 : op = 0x29
  · rw [if_pos hop6] at h
    injection h with h; subst h; exact nz_p5 _ _ h5
  rw [if_neg hop6] at h
  by_cases hop7 : op = 0x2A
  · rw [if_pos hop7] at h
    injection h with h; subst h; exact t5_assign_bit _ _ _ (by decide) (nz_p5 _ _ h5)
  rw [if_neg hop7] at h
  by_cases hop8 : op = 0x2C
  · rw [if_pos hop8] at h
    injection h with h; subst h; exact t5_bit_test _ _ (t5_assign_bit _ _ _ (by decide) h5)
  rw [if_neg hop8] at h
  by_cases hop9 : op = 0x2D
  · rw [if_pos hop9] at h
    injection h with h; subst h; exact nz_p5 _ _ h5
  rw [if_neg hop9] at h
  by_cases hop10 : op = 0x2E
  · rw [if_pos hop10] at h
    injection h with h; subst h; exact t5_assign_bit _ _ _ (by decide) (nz_p5 _ _ h5)
  rw [if_neg hop10] at h
  exact Option.noConfusion h

/-- Every successful dispatch in block 0x30-0x3F preserves bit 5 of P. -/
theorem execBlock3_p5 {M : Type} (mem : Memory M) (op : Nat) (cpu : Cpu) (m : M)
    (out : Cpu × M) (h5 : cpu.p.testBit 5 = true)
    (h : execBlock3 mem op cpu m = some out) : out.1.p.testBit 5 = true := by
  unfold execBlock3 at h
  by_cases hop0 : op = 0x30
  · rw [if_pos hop0] at h
    injection h with h; subst h; exact branch_p5 _ _ _ _ h5
  rw [if_neg hop0] at h
  by_cases hop1 : op = 0x31
  · rw [if_pos hop1] at h
    injection h with h; subst h; exact nz_p5 _ _ h5
  rw [if_neg hop1] at h
  by_cases hop2 : op = 0x35
  · rw [if_pos hop2] at h
    injection h with h; subst h; exact nz_p5 _ _ h5
  rw [if_neg hop2] at h
  by_cases hop3 : op = 0x36
  · rw [if_pos hop3] at h
    injection h with h; subst h; exact t5_assign_bit _ _ _ (by decide) (nz_p5 _ _ h5)
  rw [if_neg hop3] at h
  by_cases hop4 : op = 0x38
  · rw [if_pos hop4] at h
    injection h with h; subst h; exact t5_set_bit _ _ h5
  rw [if_neg hop4] at h
  by_cases hop5 : op = 0x39
  · rw [if_pos hop5] at h
    injection h with h; subst h; exact nz_p5 _ _ h5
  rw [if_neg hop5] at h
  by_cases hop6 : op = 0x3D
  · rw [if_pos hop6] at h
    injection h with h; subst h; exact nz_p5 _ _ h5
  rw [if_neg hop6] at h
  by_cases hop7 : op = 0x3E
  · rw [if_pos hop7] at h
    injection h with h; subst h; exact t5_assign_bit _ _ _ (by decide) (nz_p5 _ _ h5)
  rw [if_neg hop7] at h
  exact Option.noConfusion h

/-- Every successful dispatch in block 0x40-0x4F preserves bit 5 of P. -/
theorem execBlock4_p5 {M : Type} (mem : Memory M) (op : Nat) (cpu : Cpu) (m : M)
    (out : Cpu × M) (h5 : cpu.p.testBit 5 = true)
    (h : execBlock4 mem op cpu m = some out) : out.1.p.testBit 5 = true := by
  unfold execBlock4 at h
  by_cases hop0 : op = 0x41
  · rw [if_pos hop0] at h
    injection h with h; subst h; exact nz_p5 _ _ h5
  rw [if_neg hop0] at h
  by_cases hop1 : op = 0x45
  · rw [if_pos hop1] at h
    injection h with h; subst h; exact nz_p5 _ _ h5
  rw [if_neg hop1] at h
  by_cases hop2 : op = 0x46
  · rw [if_pos hop2] at h
    injection h with h; subst h; exact t5_assign_bit _ _ _ (by decide) (nz_p5 _ _ h5)
  rw [if_neg hop2] at h
  by_cases hop3 : op = 0x48
  · rw [if_pos hop3] at h
    injection h with h; subst h; exact h5
  rw [if_neg hop3] at h
  by_cases hop4 : op = 0x49
  · rw [if_pos hop4] at h
    injection h with h; subst h; exact nz_p5 _ _ h5
  rw [if_neg hop4] at h
  by_cases hop5 : op = 0x4A
  · rw [if_pos hop5] at h
    injection h with h; subst h; exact t5_assign_bit _ _ _ (by decide) (nz_p5 _ _ h5)
  rw [if_neg hop5] at h
  by_cases hop6 : op = 0x4C
  · rw [if_pos hop6] at h
    injection h with h; subst h; exact h5
  rw [if_neg hop6] at h
  by_cases hop7 : op = 0x4D
  · rw [if_pos hop7] at h
    injection h with h; subst h; exact nz_p5 _ _ h5
  rw [if_neg hop7] at h
  by_cases hop8 : op = 0x4E
  · rw [if_pos hop8] at h
    injection h with h; subst h; exact t5_assign_bit _ _ _ (by decide) (nz_p5 _ _ h5)
  rw [if_neg hop8] at h
  exact Option.noConfusion h

/-- Every successful dispatch in block 0x50-0x5F preserves bit 5 of P. -/
theorem execBlock5_p5 {M : Type} (mem : Memory M) (op : Nat) (cpu : Cpu) (m : M)
    (out : Cpu × M) (h5 : cpu.p.testBit 5 = true)
    (h : execBlock5 mem op cpu m = some out) : out.1.p.testBit 5 = true := by
  unfold execBlock5 at h
  by_cases hop0 : op = 0x50
  · rw [if_pos hop0] at h
    injection h with h; subst h; exact branch_p5 _ _ _ _ h5
  rw [if_neg hop0] at h
  by_cases hop1 : op = 0x51
  · rw [if_pos hop1] at h
    injection h with h; subst h; exact nz_p5 _ _ h5
  rw [if_neg hop1] at h
  by_cases hop2 : op = 0x55
  · rw [if_pos hop2] at h
    injection h with h; subst h; exact nz_p5 _ _ h5
  rw [if_neg hop2] at h
  by_cases hop3 : op = 0x56
  · rw [if_pos hop3] at h
    injection h with h; subst h; exact t5_assign_bit _ _ _ (by decide) (nz_p5 _ _ h5)
  rw [if_neg hop3] at h
  by_cases hop4 : op = 0x58
  · rw [if_pos hop4] at h
    injection h with h; subst h; exact t5_clear_bit _ _ (by decide) h5
  rw [if_neg hop4] at h
  by_cases hop5 : op = 0x59
  · rw [if_pos hop5] at h
    injection h with h; subst h; exact nz_p5 _ _ h5
  rw [if_neg hop5] at h
  by_cases hop6 : op = 0x5D
  · rw [if_pos hop6] at h
    injection h with h; subst h; exact nz_p5 _ _ h5
  rw [if_neg hop6] at h
  by_cases hop7 : op = 0x5E
  · rw [if_pos hop7] at h
    injection h with h; subst h; exact t5_assign_bit _ _ _ (by decide) (nz_p5 _ _ h5)
  rw [if_neg hop7] at h
  exact Option.noConfusion h

/-- Every successful dispatch in block 0x60-0x6F preserves bit 5 of P. -/
theorem execBlock6_p5 {M : Type} (mem : Memory M) (op : Nat) (cpu : Cpu) (m : M)
    (out : Cpu × M) (h5 : cpu.p.testBit 5 = true)
    (h : execBlock6 mem op cpu m = some out) : out.1.p.testBit 5 = true := by
  unfold execBlock6 at h
  by_cases hop0 : op = 0x60
  · rw [if_pos hop0] at h
    injection h with h; subst h; exact h5
  rw [if_neg hop0] at h
  by_cases hop1 : op = 0x61
  · rw [if_pos hop1] at h
    injection h with h; subst h; exact t5_assign_bit _ _ _ (by decide) (nz_p5 _ _ (t5_assign_bit _ _ _ (by decide) h5))
  rw [if_neg hop1] at h
  by_cases hop2 : op = 0x65
  · rw [if_pos hop2] at h
    injection h with h; subst h; exact t5_assign_bit _ _ _ (by decide) (nz_p5 _ _ (t5_assign_bit _ _ _ (by decide) h5))
  rw [if_neg hop2] at h
  by_cases hop3 : op = 0x66
  · rw [if_pos hop3] at h
    injection h with h; subst h; exact t5_assign_bit _ _ _ (by decide) (nz_p5 _ _ h5)
  rw [if_neg hop3] at h
  by_cases hop4 : op = 0x68
  · rw [if_pos hop4] at h
    injection h with h; subst h; exact nz_p5 _ _ h5
  rw [if_neg hop4] at h
  by_cases hop5 : op = 0x69
  · rw [if_pos hop5] at h
    injection h with h; subst h; exact t5_assign_bit _ _ _ (by decide) (nz_p5 _ _ (t5_assign_bit _ _ _ (by decide) h5))
  rw [if_neg hop5] at h
  by_cases hop6 : op = 0x6A
  · rw [if_pos hop6] at h
    injection h with h; subst h; exact t5_assign_bit _ _ _ (by decide) (nz_p5 _ _ h5)
  rw [if_neg hop6] at h
  by_cases hop7 : op = 0x6C
  · rw [if_pos hop7] at h
    injection h with h; subst h; exact h5
  rw [if_neg hop7] at h
  by_cases hop8 : op = 0x6D
  · rw [if_pos hop8] at h
    injection h with h; subst h; exact t5_assign_bit _ _ _ (by decide) (nz_p5 _ _ (t5_assign_bit _ _ _ (by decide) h5))
  rw [if_neg hop8] at h
  by_cases hop9 : op = 0x6E
  · rw [if_pos hop9] at h
    injection h with h; subst h; exact t5_assign_bit _ _ _ (by decide) (nz_p5 _ _ h5)
  rw [if_neg hop9] at h
  exact Option.noConfusion h

/-- Every successful dispatch in block 0x70-0x7F preserves bit 5 of P. -/
theorem execBlock7_p5 {M : Type} (mem : Memory M) (op : Nat) (cpu : Cpu) (m : M)
    (out : Cpu × M) (h5 : cpu.p.testBit 5 = true)
    (h : execBlock7 mem op cpu m = some out) : out.1.p.testBit 5 = true := by
  unfold execBlock7 at h
  by_cases hop0 : op = 0x70
  · rw [if_pos hop0] at h
    injection h with h; subst h; exact branch_p5 _ _ _ _ h5
  rw [if_neg hop0] at h
  by_cases hop1 : op = 0x71
  · rw [if_pos hop1] at h
    injection h with h; subst h; exact t5_assign_bit _ _ _ (by decide) (nz_p5 _ _ (t5_assign_bit _ _ _ (by decide) h5))
  rw [if_neg hop1] at h
  by_cases hop2 : op = 0x75
  · rw [if_pos hop2] at h
    injection h with h; subst h; exact t5_assign_bit _ _ _ (by decide) (nz_p5 _ _ (t5_assign_bit _ _ _ (by decide) h5))
  rw [if_neg hop2] at h
  by_cases hop3 : op = 0x76
  · rw [if_pos hop3] at h
    injection h with h; subst h; exact t5_assign_bit _ _ _ (by decide) (nz_p5 _ _ h5)
  rw [if_neg hop3] at h
  by_cases hop4 : op = 0x78
  · rw [if_pos hop4] at h
    injection h with h; subst h; exact t5_set_bit _ _ h5
  rw [if_neg hop4] at h
  by_cases hop5 : op = 0x79
  · rw [if_pos hop5] at h
    injection h with h; subst h; exact t5_assign_bit _ _ _ (by decide) (nz_p5 _ _ (t5_assign_bit _ _ _ (by decide) h5))
  rw [if_neg hop5] at h
  by_cases hop6 : op = 0x7D
  · rw [if_pos hop6] at h
    injection h with h; subst h; exact t5_assign_bit _ _ _ (by decide) (nz_p5 _ _ (t5_assign_bit _ _ _ (by decide) h5))
  rw [if_neg hop6] at h
  by_cases hop7 : op = 0x7E
  · rw [if_pos hop7] at h
    injection h with h; subst h; exact t5_assign_bit _ _ _ (by decide) (nz_p5 _ _ h5)
  rw [if_neg hop7] at h
  exact Option.noConfusion h

/-- Every successful dispatch in block 0x80-0x8F preserves bit 5 of P. -/
theorem execBlock8_p5 {M : Type} (mem : Memory M) (op : Nat) (cpu : Cpu) (m : M)
    (out : Cpu × M) (h5 : cpu.p.testBit 5 = true)
    (h : execBlock8 mem op cpu m = some out) : out.1.p.testBit 5 = true := by
  unfold execBlock8 at h
  by_cases hop0 : op = 0x81
  · rw [if_pos hop0] at h
    injection h with h; subst h; exact h5
  rw [if_neg hop0] at h
  by_cases hop1 : op = 0x84
  · rw [if_pos hop1] at h
    injection h with h; subst h; exact h5
  rw [if_neg hop1] at h
  by_cases hop2 : op = 0x85
  · rw [if_pos hop2] at h
    injection h with h; subst h; exact h5
  rw [if_neg hop2] at h
  by_cases hop3 : op = 0x86
  · rw [if_pos hop3] at h
    injection h with h; subst h; exact h5
  rw [if_neg hop3] at h
  by_cases hop4 : op = 0x88
  · rw [if_pos hop4] at h
    injection h with h; subst h; exact nz_p5 _ _ h5
  rw [if_neg hop4] at h
  by_cases hop5 : op = 0x8A
  · rw [if_pos hop5] at h
    injection h with h; subst h; exact nz_p5 _ _ h5
  rw [if_neg hop5] at h
  by_cases hop6 : op = 0x8C
  · rw [if_pos hop6] at h
    injection h with h; subst h; exact h5
  rw [if_neg hop6] at h
  by_cases hop7 : op = 0x8D
  · rw [if_pos hop7] at h
    injection h with h; subst h; exact h5
  rw [if_neg hop7] at h
  by_cases hop8 : op = 0x8E
  · rw [if_pos hop8] at h
    injection h with h; subst h; exact h5
  rw [if_neg hop8] at h
  exact Option.noConfusion h

/-- Every successful dispatch in block 0x90-0x9F preserves bit 5 of P. -/
theorem execBlock9_p5 {M : Type} (mem : Memory M) (op : Nat) (cpu : Cpu) (m : M)
    (out : Cpu × M) (h5 : cpu.p.testBit 5 = true)
    (h : execBlock9 mem op cpu m = some out) : out.1.p.testBit 5 = true := by
  unfold execBlock9 at h
  by_cases hop0 : op = 0x90
  · rw [if_pos hop0] at h
    injection h with h; subst h; exact branch_p5 _ _ _ _ h5
  rw [if_neg hop0] at h
  by_cases hop1 : op = 0x91
  · rw [if_pos hop1] at h
    injection h with h; subst h; exact h5
  rw [if_neg hop1] at h
  by_cases hop2 : op = 0x94
  · rw [if_pos hop2] at h
    injection h with h; subst h; exact h5
  rw [if_neg hop2] at h
  by_cases hop3 : op = 0x95
  · rw [if_pos hop3] at h
    injection h with h; subst h; exact h5
  rw [if_neg hop3] at h
  by_cases hop4 : op = 0x96
  · rw [if_pos hop4] at h
    injection h with h; subst h; exact h5
  rw [if_neg hop4] at h
  by_cases hop5 : op = 0x98
  · rw [if_pos hop5] at h
    injection h with h; subst h; exact nz_p5 _ _ h5
  rw [if_neg hop5] at h
  by_cases hop6 : op = 0x99
  · rw [if_pos hop6] at h
    injection h with h; subst h; exact h5
  rw [if_neg hop6] at h
  by_cases hop7 : op = 0x9A
  · rw [if_pos hop7] at h
    injection h with h; subst h; exact h5
  rw [if_neg hop7] at h
  by_cases hop8 : op = 0x9D
  · rw [if_pos hop8] at h
    injection h with h; subst h; exact h5
  rw [if_neg hop8] at h
  exact Option.noConfusion h

/-- Every successful dispatch in block 0xA0-0xAF preserves bit 5 of P. -/
theorem execBlockA_p5 {M : Type} (mem : Memory M) (op : Nat) (cpu : Cpu) (m : M)
    (out : Cpu × M) (h5 : cpu.p.testBit 5 = true)
    (h : execBlockA mem op cpu m = some out) : out.1.p.testBit 5 = true := by
  unfold execBlockA at h
  by_cases hop0 : op = 0xA0
  · rw [if_pos hop0] at h
    injection h with h; subst h; exact nz_p5 _ _ h5
  rw [if_neg hop0] at h
  by_cases hop1 : op = 0xA1
  · rw [if_pos hop1] at h
    injection h with h; subst h; exact nz_p5 _ _ h5
  rw [if_neg hop1] at h
  by_cases hop2 : op = 0xA2
  · rw [if_pos hop2] at h
    injection h with h; subst h; exact nz_p5 _ _ h5
  rw [if_neg hop2] at h
  by_cases hop3 : op = 0xA4
  · rw [if_pos hop3] at h
    injection h with h; subst h; exact nz_p5 _ _ h5
  rw [if_neg hop3] at h
  by_cases hop4 : op = 0xA5
  · rw [if_pos hop4] at h
    injection h with h; subst h; exact nz_p5 _ _ h5
  rw [if_neg hop4] at h
  by_cases hop5 : op = 0xA6
  · rw [if_pos hop5] at h
    injection h with h; subst h; exact nz_p5 _ _ h5
  rw [if_neg hop5] at h
  by_cases hop6 : op = 0xA8
  · rw [if_pos hop6] at h
    injection h with h; subst h; exact nz_p5 _ _ h5
  rw [if_neg hop6] at h
  by_cases hop7 : op = 0xA9
  · rw [if_pos hop7] at h
    injection h with h; subst h; exact nz_p5 _ _ h5
  rw [if_neg hop7] at h
  by_cases hop8 : op = 0xAA
  · rw [if_pos hop8] at h
    injection h with h; subst h; exact nz_p5 _ _ h5
  rw [if_neg hop8] at h
  by_cases hop9 : op = 0xAC
  · rw [if_pos hop9] at h
    injection h with h; subst h; exact nz_p5 _ _ h5
  rw [if_neg hop9] at h
  by_cases hop10 : op = 0xAD
  · rw [if_pos hop10] at h
    injection h with h; subst h; exact nz_p5 _ _ h5
  rw [if_neg hop10] at h
  by_cases hop11 : op = 0xAE
  · rw [if_pos hop11] at h
    injection h with h; subst h; exact nz_p5 _ _ h5
  rw [if_neg hop11] at h
  exact Option.noConfusion h

/-- Every successful dispatch in block 0xB0-0xBF preserves bit 5 of P. -/
theorem execBlockB_p5 {M : Type} (mem : Memory M) (op : Nat) (cpu : Cpu) (m : M)
    (out : Cpu × M) (h5 : cpu.p.testBit 5 = true)
    (h : execBlockB mem op cpu m = some out) : out.1.p.testBit 5 = true := by
  unfold execBlockB at h
  by_cases hop0 : op = 0xB0
  · rw [if_pos hop0] at h
    injection h with h; subst h; exact branch_p5 _ _ _ _ h5
  rw [if_neg hop0] at h
  by_cases hop1 : op = 0xB1
  · rw [if_pos hop1] at h
    injection h with h; subst h; exact nz_p5 _ _ h5
  rw [if_neg hop1] at h
  by_cases hop2 : op = 0xB4
  · rw [if_pos hop2] at h
    injection h with h; subst h; exact nz_p5 _ _ h5
  rw [if_neg hop2] at h
  by_cases hop3 : op = 0xB5
  · rw [if_pos hop3] at h
    injection h with h; subst h; exact nz_p5 _ _ h5
  rw [if_neg hop3] at h
  by_cases hop4 : op = 0xB6
  · rw [if_pos hop4] at h
    injection h with h; subst h; exact nz_p5 _ _ h5
  rw [if_neg hop4] at h
  by_cases hop5 : op = 0xB8
  · rw [if_pos hop5] at h
    injection h with h; subst h; exact t5_clear_bit _ _ (by decide) h5
  rw [if_neg hop5] at h
  by_cases hop6 : op = 0xB9
  · rw [if_pos hop6] at h
    injection h with h; subst h; exact nz_p5 _ _ h5
  rw [if_neg hop6] at h
  by_cases hop7 : op = 0xBA
  · rw [if_pos hop7] at h
    injection h with h; subst h; exact nz_p5 _ _ h5
  rw [if_neg hop7] at h
  by_cases hop8 : op = 0xBC
  · rw [if_pos hop8] at h
    injection h with h; subst h; exact nz_p5 _ _ h5
  rw [if_neg hop8] at h
  by_cases hop9 : op = 0xBD
  · rw [if_pos hop9] at h
    injection h with h; subst h; exact nz_p5 _ _ h5
  rw [if_neg hop9] at h
  by_cases hop10 : op = 0xBE
  · rw [if_pos hop10] at h
    injection h with h; subst h; exact nz_p5 _ _ h5
  rw [if_neg hop10] at h
  exact Option.noConfusion h

/-- Every successful dispatch in block 0xC0-0xCF preserves bit 5 of P. -/
theorem execBlockC_p5 {M : Type} (mem : Memory M) (op : Nat) (cpu : Cpu) (m : M)
    (out : Cpu × M) (h5 : cpu.p.testBit 5 = true)
    (h : execBlockC mem op cpu m = some out) : out.1.p.testBit 5 = true := by
  unfold execBlockC at h
  by_cases hop0 : op = 0xC0
  · rw [if_pos hop0] at h
    injection h with h; subst h; exact t5_assign_bit _ _ _ (by decide) (nz_p5 _ _ (t5_assign_bit _ _ _ (by decide) h5))
  rw [if_neg hop0] at h
  by_cases hop1 : op = 0xC1
  · rw [if_pos hop1] at h
    injection h with h; subst h; exact t5_assign_bit _ _ _ (by decide) (nz_p5 _ _ (t5_assign_bit _ _ _ (by decide) h5))
  rw [if_neg hop1] at h
  by_cases hop2 : op = 0xC4
  · rw [if_pos hop2] at h
    injection h with h; subst h; exact t5_assign_bit _ _ _ (by decide) (nz_p5 _ _ (t5_assign_bit _ _ _ (by decide) h5))
  rw [if_neg hop2] at h
  by_cases hop3 : op = 0xC5
  · rw [if_pos hop3] at h
    injection h with h; subst h; exact t5_assign_bit _ _ _ (by decide) (nz_p5 _ _ (t5_assign_bit _ _ _ (by decide) h5))
  rw [if_neg hop3] at h
  by_cases hop4 : op = 0xC6
  · rw [if_pos hop4] at h
    injection h with h; subst h; exact nz_p5 _ _ h5
  rw [if_neg hop4] at h
  by_cases hop5 : op = 0xC8
  · rw [if_pos hop5] at h
    injection h with h; subst h; exact nz_p5 _ _ h5
  rw [if_neg hop5] at h
  by_cases hop6 : op = 0xC9
  · rw [if_pos hop6] at h
    injection h with h; subst h; exact t5_assign_bit _ _ _ (by decide) (nz_p5 _ _ (t5_assign_bit _ _ _ (by decide) h5))
  rw [if_neg hop6] at h
  by_cases hop7 : op = 0xCA
  · rw [if_pos hop7] at h
    injection h with h; subst h; exact nz_p5 _ _ h5
  rw [if_neg hop7] at h
  by_cases hop8 : op = 0xCC
  · rw [if_pos hop8] at h
    injection h with h; subst h; exact t5_assign_bit _ _ _ (by decide) (nz_p5 _ _ (t5_assign_bit _ _ _ (by decide) h5))
  rw [if_neg hop8] at h
  by_cases hop9 : op = 0xCD
  · rw [if_pos hop9] at h
    injection h with h; subst h; exact t5_assign_bit _ _ _ (by decide) (nz_p5 _ _ (t5_assign_bit _ _ _ (by decide) h5))
  rw [if_neg hop9] at h
  by_cases hop10 : op = 0xCE
  · rw [if_pos hop10] at h
    injection h with h; subst h; exact nz_p5 _ _ h5
  rw [if_neg hop10] at h
  exact Option.noConfusion h

/-- Every successful dispatch in block 0xD0-0xDF preserves bit 5 of P. -/
theorem execBlockD_p5 {M : Type} (mem : Memory M) (op : Nat) (cpu : Cpu) (m : M)
    (out : Cpu × M) (h5 : cpu.p.testBit 5 = true)
    (h : execBlockD mem op cpu m = some out) : out.1.p.testBit 5 = true := by
  unfold execBlockD at h
  by_cases hop0 : op = 0xD0
  · rw [if_pos hop0] at h
    injection h with h; subst h; exact branch_p5 _ _ _ _ h5
  rw [if_neg hop0] at h
  by_cases hop1 : op = 0xD1
  · rw [if_pos hop1] at h
    injection h with h; subst h; exact t5_assign_bit _ _ _ (by decide) (nz_p5 _ _ (t5_assign_bit _ _ _ (by decide) h5))
  rw [if_neg hop1] at h
  by_cases hop2 : op = 0xD5
  · rw [if_pos hop2] at h
    injection h with h; subst h; exact t5_assign_bit _ _ _ (by decide) (nz_p5 _ _ (t5_assign_bit _ _ _ (by decide) h5))
  rw [if_neg hop2] at h
  by_cases hop3 : op = 0xD6
  · rw [if_pos hop3] at h
    injection h with h; subst h; exact nz_p5 _ _ h5
  rw [if_neg hop3] at h
  by_cases hop4 : op = 0xD8
  · rw [if_pos hop4] at h
    injection h with h; subst h; exact t5_clear_bit _ _ (by decide) h5
  rw [if_neg hop4] at h
  by_cases hop5 : op = 0xD9
  · rw [if_pos hop5] at h
    injection h with h; subst h; exact t5_assign_bit _ _ _ (by decide) (nz_p5 _ _ (t5_assign_bit _ _ _ (by decide) h5))
  rw [if_neg hop5] at h
  by_cases hop6 : op = 0xDD
  · rw [if_pos hop6] at h
    injection h with h; subst h; exact t5_assign_bit _ _ _ (by decide) (nz_p5 _ _ (t5_assign_bit _ _ _ (by decide) h5))
  rw [if_neg hop6] at h
  by_cases hop7 : op = 0xDE
  · rw [if_pos hop7] at h
    injection h with h; subst h; exact nz_p5 _ _ h5
  rw [if_neg hop7] at h
  exact Option.noConfusion h

/-- Every successful dispatch in block 0xE0-0xEF preserves bit 5 of P. -/
theorem execBlockE_p5 {M : Type} (mem : Memory M) (op : Nat) (cpu : Cpu) (m : M)
    (out : Cpu × M) (h5 : cpu.p.testBit 5 = true)
    (h : execBlockE mem op cpu m = some out) : out.1.p.testBit 5 = true := by
  unfold execBlockE at h
  by_cases hop0 : op = 0xE0
  · rw [if_pos hop0] at h
    injection h with h; subst h; exact t5_assign_bit _ _ _ (by decide) (nz_p5 _ _ (t5_assign_bit _ _ _ (by decide) h5))
  rw [if_neg hop0] at h
  by_cases hop1 : op = 0xE1
  · rw [if_pos hop1] at h
    injection h with h; subst h; exact t5_assign_bit _ _ _ (by decide) (nz_p5 _ _ (t5_assign_bit _ _ _ (by decide) h5))
  rw [if_neg hop1] at h
  by_cases hop2 : op = 0xE4
  · rw [if_pos hop2] at h
    injection h with h; subst h; exact t5_assign_bit _ _ _ (by decide) (nz_p5 _ _ (t5_assign_bit _ _ _ (by decide) h5))
  rw [if_neg hop2] at h
  by_cases hop3 : op = 0xE5
  · rw [if_pos hop3] at h
    injection h with h; subst h; exact t5_assign_bit _ _ _ (by decide) (nz_p5 _ _ (t5_assign_bit _ _ _ (by decide) h5))
  rw [if_neg hop3] at h
  by_cases hop4 : op = 0xE6
  · rw [if_pos hop4] at h
    injection h with h; subst h; exact nz_p5 _ _ h5
  rw [if_neg hop4] at h
  by_cases hop5 : op = 0xE8
  · rw [if_pos hop5] at h
    injection h with h; subst h; exact nz_p5 _ _ h5
  rw [if_neg hop5] at h
  by_cases hop6 : op = 0xE9
  · rw [if_pos hop6] at h
    injection h with h; subst h; exact t5_assign_bit _ _ _ (by decide) (nz_p5 _ _ (t5_assign_bit _ _ _ (by decide) h5))
  rw [if_neg hop6] at h
  by_cases hop7 : op = 0xEA
  · rw [if_pos hop7] at h
    injection h with h; subst h; exact h5
  rw [if_neg hop7] at h
  by_cases hop8 : op = 0xEC
  · rw [if_pos hop8] at h
    injection h with h; subst h; exact t5_assign_bit _ _ _ (by decide) (nz_p5 _ _ (t5_assign_bit _ _ _ (by decide) h5))
  rw [if_neg hop8] at h
  by_cases hop9 : op = 0xED
  · rw [if_pos hop9] at h
    injection h with h; subst h; exact t5_assign_bit _ _ _ (by decide) (nz_p5 _ _ (t5_assign_bit _ _ _ (by decide) h5))
  rw [if_neg hop9] at h
  by_cases hop10 : op = 0xEE
  · rw [if_pos hop10] at h
    injection h with h; subst h; exact nz_p5 _ _ h5
  rw [if_neg hop10] at h
  exact Option.noConfusion h

/-- Every successful dispatch in block 0xF0-0xFF preserves bit 5 of P. -/
theorem execBlockF_p5 {M : Type} (mem : Memory M) (op : Nat) (cpu : Cpu) (m : M)
    (out : Cpu × M) (h5 : cpu.p.testBit 5 = true)
    (h : execBlockF mem op cpu m = some out) : out.1.p.testBit 5 = true := by
  unfold execBlockF at h
  by_cases hop0 : op = 0xF0
  · rw [if_pos hop0] at h
    injection h with h; subst h; exact branch_p5 _ _ _ _ h5
  rw [if_neg hop0] at h
  by_cases hop1 : op = 0xF1
  · rw [if_pos hop1] at h
    injection h with h; subst h; exact t5_assign_bit _ _ _ (by decide) (nz_p5 _ _ (t5_assign_bit _ _ _ (by decide) h5))
  rw [if_neg hop1] at h
  by_cases hop2 : op = 0xF5
  · rw [if_pos hop2] at h
    injection h with h; subst h; exact t5_assign_bit _ _ _ (by decide) (nz_p5 _ _ (t5_assign_bit _ _ _ (by decide) h5))
  rw [if_neg hop2] at h
  by_cases hop3 : op = 0xF6
  · rw [if_pos hop3] at h
    injection h with h; subst h; exact nz_p5 _ _ h5
  rw [if_neg hop3] at h
  by_cases hop4 : op = 0xF8
  · rw [if_pos hop4] at h
    injection h with h; subst h; exact t5_set_bit _ _ h5
  rw [if_neg hop4] at h
  by_cases hop5 : op = 0xF9
  · rw [if_pos hop5] at h
    injection h with h; subst h; exact t5_assign_bit _ _ _ (by decide) (nz_p5 _ _ (t5_assign_bit _ _ _ (by decide) h5))
  rw [if_neg hop5] at h
  by_cases hop6 : op = 0xFD
  · rw [if_pos hop6] at h
    injection h with h; subst h; exact t5_assign_bit _ _ _ (by decide) (nz_p5 _ _ (t5_assign_bit _ _ _ (by decide) h5))
  rw [if_neg hop6] at h
  by_cases hop7 : op = 0xFE
  · rw [if_pos hop7] at h
    injection h with h; subst h; exact nz_p5 _ _ h5
  rw [if_neg hop7] at h
  exact Option.noConfusion h

/-- Every successful dispatch preserves bit 5 of P. -/
theorem exec_p5 {M : Type} (mem : Memory M) (op : Nat) (cpu : Cpu) (m : M) (out : Cpu × M)
    (h5 : cpu.p.testBit 5 = true) (h : exec mem op cpu m = some out) :
    out.1.p.testBit 5 = true := by
  unfold exec at h
  by_cases hb0 : op < 0x10
  · rw [if_pos hb0] at h
    exact execBlock0_p5 mem op cpu m out h5 h
  rw [if_neg hb0] at h
  by_cases hb1 : op < 0x20
  · rw [if_pos hb1] at h
    exact execBlock1_p5 mem op cpu m out h5 h
  rw [if_neg hb1] at h
  by_cases hb2 : op < 0x30
  · rw [if_pos hb2] at h
    exact execBlock2_p5 mem op cpu m out h5 h
  rw [if_neg hb2] at h
  by_cases hb3 : op < 0x40
  · rw [if_pos hb3] at h
    exact execBlock3_p5 mem op cpu m out h5 h
  rw [if_neg hb3] at h
  by_cases hb4 : op < 0x50
  · rw [if_pos hb4] at h
    exact execBlock4_p5 mem op cpu m out h5 h
  rw [if_neg hb4] at h
  by_cases hb5 : op < 0x60
  · rw [if_pos hb5] at h
    exact execBlock5_p5 mem op cpu m out h5 h
  rw [if_neg hb5] at h
  by_cases hb6 : op < 0x70
  · rw [if_pos hb6] at h
    exact execBlock6_p5 mem op cpu m out h5 h
  rw [if_neg hb6] at h
  by_cases hb7 : op < 0x80
  · rw [if_pos hb7] at h
    exact execBlock7_p5 mem op cpu m out h5 h
  rw [if_neg hb7] at h
  by_cases hb8 : op < 0x90
  · rw [if_pos hb8] at h
    exact execBlock8_p5 mem op cpu m out h5 h
  rw [if_neg hb8] at h
  by_cases hb9 : op < 0xA0
  · rw [if_pos hb9] at h
    exact execBlock9_p5 mem op cpu m out h5 h
  rw [if_neg hb9] at h
  by_cases hbA : op < 0xB0
  · rw [if_pos hbA] at h
    exact execBlockA_p5 mem op cpu m out h5 h
  rw [if_neg hbA] at h
  by_cases hbB : op < 0xC0
  · rw [if_pos hbB] at h
    exact execBlockB_p5 mem op cpu m out h5 h
  rw [if_neg hbB] at h
  by_cases hbC : op < 0xD0
  · rw [if_pos hbC] at h
    exact execBlockC_p5 mem op cpu m out h5 h
  rw [if_neg hbC] at h
  by_cases hbD : op < 0xE0
  · rw [if_pos hbD] at h
    exact execBlockD_p5 mem op cpu m out h5 h
  rw [if_neg hbD] at h
  by_cases hbE : op < 0xF0
  · rw [if_pos hbE] at h
    exact execBlockE_p5 mem op cpu m out h5 h
  rw [if_neg hbE] at h
  by_cases hbF : op < 0x100
  · rw [if_pos hbF] at h
    exact execBlockF_p5 mem op cpu m out h5 h
  rw [if_neg hbF] at h
  exact Option.noConfusion h
/-- One step preserves bit 5 of P. -/
theorem step_p5 {M : Type} (mem : Memory M) (cpu : Cpu) (m : M) (out : Cpu × M)
    (h5 : cpu.p.testBit 5 = true) (h : step mem cpu m = some out) :
    out.1.p.testBit 5 = true := by
  unfold step at h
  refine exec_p5 mem _ _ _ out ?_ h
  exact h5

/-- Any number of steps preserves bit 5 of P. -/
theorem runSteps_p5 {M : Type} (mem : Memory M) (n : Nat) (cpu : Cpu) (m : M) (out : Cpu × M)
    (h5 : cpu.p.testBit 5 = true) (h : runSteps mem n cpu m = some out) :
    out.1.p.testBit 5 = true := by
  induction n generalizing cpu m with
  | zero =>
    unfold runSteps at h
    injection h with h
    subst h
    exact h5
  | succ n ih =>
    unfold runSteps at h
    cases hs : step mem cpu m with
    | none => rw [hs] at h; exact Option.noConfusion h
    | some r => rw [hs] at h; exact ih r.1 r.2 (step_p5 mem cpu m r h5 hs) h

/-- C9: starting from Cpu::new (P = 0xFF) every sequence of successful
Cpu::step calls, on any memory, leaves bit 5 of the status register set, so
any push of P writes a byte with bit 5 set. -/
theorem p_bit5_invariant {M : Type} (mem : Memory M) (n : Nat) (m : M) (out : Cpu × M)
    (h : runSteps mem n Cpu.new m = some out) :
    is_bit_set out.1.p STATUS_1 = true := by
  rw [is_bit_set_1]
  exact runSteps_p5 mem n Cpu.new m out (by decide) h

/-- Witness for the bit-5 invariant: two NOP steps from Cpu::new. -/
theorem p_bit5_invariant_witness :
    runSteps (romMem (fun _ => 0xEA)) 2 Cpu.new () =
      some ({ a := 255, x := 255, y := 255, s := 255, p := 255, pc := 257 }, ()) ∧
    is_bit_set ({ a := 255, x := 255, y := 255, s := 255, p := 255, pc := 257 } : Cpu).p
      STATUS_1 = true := by
  constructor
  · decide
  · exact p_bit5_invariant (romMem (fun _ => 0xEA)) 2 ()
      ({ a := 255, x := 255, y := 255, s := 255, p := 255, pc := 257 }, ()) (by decide)


/-- C10: BIT (opcodes 0x24 and 0x2C) dispatches to bit_test, which sets Z
iff the operand byte equals the accumulator (byte equality, not the
documented and-with-zero test), replaces N and V with bits 7 and 6 of the
operand, leaves the other P bits, the registers and the memory (beyond the
operand reads) unchanged. -/
theorem bit_test_spec {M : Type} (mem : Memory M) (am : AM M)
    (cpu : Cpu) (m : M) (loc : Loc) (cpu1 : Cpu) (m1 : M) (v : Nat) (m2 : M)
    (hAM : am cpu m = (loc, cpu1, m1))
    (hGet : getValue mem loc cpu1 m1 = (v, m2))
    (ha : cpu1.a = cpu.a) :
    (exec mem 0x24 cpu m = some (bit_test mem (amZeroPage mem) cpu m)) ∧
    (exec mem 0x2C cpu m = some (bit_test mem (amAbsolute mem) cpu m)) ∧
    (bit_test mem am cpu m).2 = m2 ∧
    ((bit_test mem am cpu m).1).a = cpu.a ∧
    (is_bit_set (bit_test mem am cpu m).1.p STATUS_Z = true ↔ v = cpu.a) ∧
    is_bit_set (bit_test mem am cpu m).1.p STATUS_N = Nat.testBit v 7 ∧
    is_bit_set (bit_test mem am cpu m).1.p STATUS_V = Nat.testBit v 6 ∧
    is_bit_set (bit_test mem am cpu m).1.p STATUS_C = is_bit_set cpu1.p STATUS_C ∧
    is_bit_set (bit_test mem am cpu m).1.p STATUS_I = is_bit_set cpu1.p STATUS_I ∧
    is_bit_set (bit_test mem am cpu m).1.p STATUS_D = is_bit_set cpu1.p STATUS_D ∧
    is_bit_set (bit_test mem am cpu m).1.p STATUS_B = is_bit_set cpu1.p STATUS_B ∧
    is_bit_set (bit_test mem am cpu m).1.p STATUS_1 = is_bit_set cpu1.p STATUS_1 := by
  have hbt : bit_test mem am cpu m =
      ({ cpu1 with
          p := ((assign_bit cpu1.p STATUS_Z (v == cpu1.a)) &&& 0x3F) ||| (v &&& 0xC0) }, m2) := by
    unfold bit_test
    rw [hAM]
    dsimp only
    rw [hGet]
  refine ⟨rfl, rfl, ?_, ?_, ?_, ?_, ?_, ?_, ?_, ?_, ?_, ?_⟩ <;> rw [hbt]
  · exact ha
  · rw [is_bit_set_Z]
    simp only [Nat.testBit_lor, Nat.testBit_land,
      testBit_assign_bit _ _ _ 1 (by norm_num),
      show STATUS_Z.testBit 1 = true from by decide,
      show Nat.testBit 0x3F 1 = true from by decide,
      show Nat.testBit 0xC0 1 = false from by decide, eq_self_iff_true, if_true,
      Bool.and_true, Bool.and_false, Bool.or_false]
    rw [ha]
    exact beq_iff_eq
  · rw [is_bit_set_N]
    simp only [Nat.testBit_lor, Nat.testBit_land,
      testBit_assign_bit _ _ _ 7 (by norm_num),
      show STATUS_Z.testBit 7 = false from by decide,
      show Nat.testBit 0x3F 7 = false from by decide,
      show Nat.testBit 0xC0 7 = true from by decide, Bool.false_eq_true, if_false,
      Bool.and_true, Bool.and_false, Bool.false_or]
  · rw [is_bit_set_V]
    simp only [Nat.testBit_lor, Nat.testBit_land,
      testBit_assign_bit _ _ _ 6 (by norm_num),
      show STATUS_Z.testBit 6 = false from by decide,
      show Nat.testBit 0x3F 6 = false from by decide,
      show Nat.testBit 0xC0 6 = true from by decide, Bool.false_eq_true, if_false,
      Bool.and_true, Bool.and_false, Bool.false_or]
  · rw [is_bit_set_C, is_bit_set_C]
    simp only [Nat.testBit_lor, Nat.testBit_land,
      testBit_assign_bit _ _ _ 0 (by norm_num),
      show STATUS_Z.testBit 0 = false from by decide,
      show Nat.testBit 0x3F 0 = true from by decide,
      show Nat.testBit 0xC0 0 = false from by decide, Bool.false_eq_true, if_false,
      Bool.and_true, Bool.and_false, Bool.or_false]
  · rw [is_bit_set_I, is_bit_set_I]
    simp only [Nat.testBit_lor, Nat.testBit_land,
      testBit_assign_bit _ _ _ 2 (by norm_num),
      show STATUS_Z.testBit 2 = false from by decide,
      show Nat.testBit 0x3F 2 = true from by decide,
      show Nat.testBit 0xC0 2 = false from by decide, Bool.false_eq_true, if_false,
      Bool.and_true, Bool.and_false, Bool.or_false]
  · rw [is_bit_set_D, is_bit_set_D]
    simp only [Nat.testBit_lor, Nat.testBit_land,
      testBit_assign_bit _ _ _ 3 (by norm_num),
      show STATUS_Z.testBit 3 = false from by decide,
      show Nat.testBit 0x3F 3 = true from by decide,
      show Nat.testBit 0xC0 3 = false from by decide, Bool.false_eq_true, if_false,
      Bool.and_true, Bool.and_false, Bool.or_false]
  · rw [is_bit_set_B, is_bit_set_B]
    simp only [Nat.testBit_lor, Nat.testBit_land,
      testBit_assign_bit _ _ _ 4 (by norm_num),
      show STATUS_Z.testBit 4 = false from by decide,
      show Nat.testBit 0x3F 4 = true from by decide,
      show Nat.testBit 0xC0 4 = false from by decide, Bool.false_eq_true, if_false,
      Bool.and_true, Bool.and_false, Bool.or_false]
  · rw [is_bit_set_1, is_bit_set_1]
    simp only [Nat.testBit_lor, Nat.testBit_land,
      testBit_assign_bit _ _ _ 5 (by norm_num),
      show STATUS_Z.testBit 5 = false from by decide,
      show Nat.testBit 0x3F 5 = true from by decide,
      show Nat.testBit 0xC0 5 = false from by decide, Bool.false_eq_true, if_false,
      Bool.and_true, Bool.and_false, Bool.or_false]

/-- Witness for the BIT theorem: BIT zero page with the operand byte equal
to the accumulator. -/
theorem bit_test_spec_witness :
    amZeroPage (romMem (fun _ => 0x40)) { sbcCpu with a := 0x40 } () =
      (Loc.addr 0x40, { sbcCpu with a := 0x40, pc := 0x8001 }, ()) ∧
    (is_bit_set (bit_test (romMem (fun _ => 0x40))
        (amZeroPage (romMem (fun _ => 0x40))) { sbcCpu with a := 0x40 } ()).1.p STATUS_Z =
      true ↔ (0x40 : Nat) = ({ sbcCpu with a := 0x40 } : Cpu).a) := by
  refine ⟨by decide, ?_⟩
  have h := bit_test_spec (romMem (fun _ => 0x40)) (amZeroPage (romMem (fun _ => 0x40)))
    { sbcCpu with a := 0x40 } () (Loc.addr 0x40) { sbcCpu with a := 0x40, pc := 0x8001 } ()
    0x40 () (by decide) (by decide) rfl
  exact h.2.2.2.2.1


/-- C3 counterexample: executing SBC immediate with A = 0x50, C = 1,
operand 0xF0 leaves the V flag CLEAR, contradicting the claimed V = 1. -/
theorem sbc_scenario_counterexample :
    (step (romMem sbcProgram) sbcCpu ()).map
      (fun r => (r.1.a, is_bit_set r.1.p STATUS_V)) = some (0x60, false) := by decide

/-- C3 amended: SBC immediate with operand 0xF0, A = 0x50 and C = 1 yields
A = 0x60, C = 0, V = 0, N = 0, Z = 0. -/
theorem sbc_scenario_flags :
    (step (romMem sbcProgram) sbcCpu ()).map
      (fun r => (r.1.a, is_bit_set r.1.p STATUS_C, is_bit_set r.1.p STATUS_V,
        is_bit_set r.1.p STATUS_N, is_bit_set r.1.p STATUS_Z)) =
      some (0x60, false, false, false, false) := by decide

/-- Program bytes for the taken-branch scenario with operand 0xFE: a BNE
opcode at 0x80FF, its offset byte at 0x8100. -/
def branchProgramBack : Nat → Nat :=
  fun a => if a = 0x80FF then 0xD0 else if a = 0x8100 then 0xFE else 0

/-- Program bytes for the taken-branch scenario with operand 0x7F. -/
def branchProgramFwd : Nat → Nat :=
  fun a => if a = 0x80FF then 0xD0 else if a = 0x8100 then 0x7F else 0

/-- CPU state before the branch scenarios: Z clear so BNE is taken, PC at
the opcode so that PC = 0x8100 right after the opcode fetch. -/
def branchCpu : Cpu := { a := 0, x := 0, y := 0, s := 0xFF, p := 0x20, pc := 0x80FF }

/-- C5 counterexample: with PC = 0x8100 after the opcode fetch and operand
0xFE, the taken branch lands at 0x80FF (offset relative to the PC after the
operand fetch), not at the claimed 0x80FE. -/
theorem branch_range_counterexample :
    (step (romMem branchProgramBack) branchCpu ()).map (fun r => r.1.pc) = some 0x80FF ∧
    (step (romMem branchProgramBack) branchCpu ()).map (fun r => r.1.pc) ≠ some 0x80FE := by
  constructor
  · decide
  · decide

/-- C5 amended: operand 0xFE lands at 0x80FF and operand 0x7F lands at
0x8180 (both relative to the PC after the operand byte). -/
theorem branch_range_destinations :
    (step (romMem branchProgramBack) branchCpu ()).map (fun r => r.1.pc) = some 0x80FF ∧
    (step (romMem branchProgramFwd) branchCpu ()).map (fun r => r.1.pc) = some 0x8180 := by
  constructor
  · decide
  · decide

/-- C4 counterexample: the 65C02 STZ zero-page opcode 0x64 reaches the
unknown-opcode panic arm of Cpu::step. -/
theorem stz_opcode_panics :
    step (romMem (fun _ => 0x64)) sbcCpu () = none := by decide

/-- The dispatch-arm opcode bytes of Cpu::step in 0x00-0x0F. -/
def implemented_opcodes_0 : List Nat := [0x01, 0x05, 0x06, 0x08, 0x09, 0x0A, 0x0D, 0x0E]

/-- The dispatch-arm opcode bytes of Cpu::step in 0x10-0x1F. -/
def implemented_opcodes_1 : List Nat := [0x10, 0x11, 0x15, 0x16, 0x18, 0x19, 0x1D, 0x1E]

/-- The dispatch-arm opcode bytes of Cpu::step in 0x20-0x2F. -/
def implemented_opcodes_2 : List Nat := [0x20, 0x21, 0x24, 0x25, 0x26, 0x28, 0x29, 0x2A, 0x2C, 0x2D, 0x2E]

/-- The dispatch-arm opcode bytes of Cpu::step in 0x30-0x3F. -/
def implemented_opcodes_3 : List Nat := [0x30, 0x31, 0x35, 0x36, 0x38, 0x39, 0x3D, 0x3E]

/-- The dispatch-arm opcode bytes of Cpu::step in 0x40-0x4F. -/
def implemented_opcodes_4 : List Nat := [0x41, 0x45, 0x46, 0x48, 0x49, 0x4A, 0x4C, 0x4D, 0x4E]

/-- The dispatch-arm opcode bytes of Cpu::step in 0x50-0x5F. -/
def implemented_opcodes_5 : List Nat := [0x50, 0x51, 0x55, 0x56, 0x58, 0x59, 0x5D, 0x5E]

/-- The dispatch-arm opcode bytes of Cpu::step in 0x60-0x6F. -/
def implemented_opcodes_6 : List Nat := [0x60, 0x61, 0x65, 0x66, 0x68, 0x69, 0x6A, 0x6C, 0x6D, 0x6E]

/-- The dispatch-arm opcode bytes of Cpu::step in 0x70-0x7F. -/
def implemented_opcodes_7 : List Nat := [0x70, 0x71, 0x75, 0x76, 0x78, 0x79, 0x7D, 0x7E]

/-- The dispatch-arm opcode bytes of Cpu::step in 0x80-0x8F. -/
def implemented_opcodes_8 : List Nat := [0x81, 0x84, 0x85, 0x86, 0x88, 0x8A, 0x8C, 0x8D, 0x8E]

/-- The dispatch-arm opcode bytes of Cpu::step in 0x90-0x9F. -/
def implemented_opcodes_9 : List Nat := [0x90, 0x91, 0x94, 0x95, 0x96, 0x98, 0x99, 0x9A, 0x9D]

/-- The dispatch-arm opcode bytes of Cpu::step in 0xA0-0xAF. -/
def implemented_opcodes_A : List Nat := [0xA0, 0xA1, 0xA2, 0xA4, 0xA5, 0xA6, 0xA8, 0xA9, 0xAA, 0xAC, 0xAD, 0xAE]

/-- The dispatch-arm opcode bytes of Cpu::step in 0xB0-0xBF. -/
def implemented_opcodes_B : List Nat := [0xB0, 0xB1, 0xB4, 0xB5, 0xB6, 0xB8, 0xB9, 0xBA, 0xBC, 0xBD, 0xBE]

/-- The dispatch-arm opcode bytes of Cpu::step in 0xC0-0xCF. -/
def implemented_opcodes_C : List Nat := [0xC0, 0xC1, 0xC4, 0xC5, 0xC6, 0xC8, 0xC9, 0xCA, 0xCC, 0xCD, 0xCE]

/-- The dispatch-arm opcode bytes of Cpu::step in 0xD0-0xDF. -/
def implemented_opcodes_D : List Nat := [0xD0, 0xD1, 0xD5, 0xD6, 0xD8, 0xD9, 0xDD, 0xDE]

/-- The dispatch-arm opcode bytes of Cpu::step in 0xE0-0xEF. -/
def implemented_opcodes_E : List Nat := [0xE0, 0xE1, 0xE4, 0xE5, 0xE6, 0xE8, 0xE9, 0xEA, 0xEC, 0xED, 0xEE]

/-- The dispatch-arm opcode bytes of Cpu::step in 0xF0-0xFF. -/
def implemented_opcodes_F : List Nat := [0xF0, 0xF1, 0xF5, 0xF6, 0xF8, 0xF9, 0xFD, 0xFE]

/-- The opcode bytes that have a dispatch arm in Cpu::step (every arm of
the match other than BRK and the unknown-opcode arm). -/
def implemented_opcodes : List Nat :=
  implemented_opcodes_0 ++ (implemented_opcodes_1 ++ (implemented_opcodes_2 ++ (implemented_opcodes_3 ++ (implemented_opcodes_4 ++ (implemented_opcodes_5 ++ (implemented_opcodes_6 ++ (implemented_opcodes_7 ++ (implemented_opcodes_8 ++ (implemented_opcodes_9 ++ (implemented_opcodes_A ++ (implemented_opcodes_B ++ (implemented_opcodes_C ++ (implemented_opcodes_D ++ (implemented_opcodes_E ++ (implemented_opcodes_F)))))))))))))))

/-- Dispatch totality for the implemented opcodes in 0x00-0x0F. -/
theorem execCoverage0 : ∀ op ∈ implemented_opcodes_0,
    ∀ (M : Type) (mem : Memory M) (cpu : Cpu) (m : M),
    (exec mem op cpu m).isSome = true := by
  intro op hop
  fin_cases hop <;> exact fun M mem cpu m => rfl

/-- Dispatch totality for the implemented opcodes in 0x10-0x1F. -/
theorem execCoverage1 : ∀ op ∈ implemented_opcodes_1,
    ∀ (M : Type) (mem : Memory M) (cpu : Cpu) (m : M),
    (exec mem op cpu m).isSome = true := by
  intro op hop
  fin_cases hop <;> exact fun M mem cpu m => rfl

/-- Dispatch totality for the implemented opcodes in 0x20-0x2F. -/
theorem execCoverage2 : ∀ op ∈ implemented_opcodes_2,
    ∀ (M : Type) (mem : Memory M) (cpu : Cpu) (m : M),
    (exec mem op cpu m).isSome = true := by
  intro op hop
  fin_cases hop <;> exact fun M mem cpu m => rfl

/-- Dispatch totality for the implemented opcodes in 0x30-0x3F. -/
theorem execCoverage3 : ∀ op ∈ implemented_opcodes_3,
    ∀ (M : Type) (mem : Memory M) (cpu : Cpu) (m : M),
    (exec mem op cpu m).isSome = true := by
  intro op hop
  fin_cases hop <;> exact fun M mem cpu m => rfl

/-- Dispatch totality for the implemented opcodes in 0x40-0x4F. -/
theorem execCoverage4 : ∀ op ∈ implemented_opcodes_4,
    ∀ (M : Type) (mem : Memory M) (cpu : Cpu) (m : M),
    (exec mem op cpu m).isSome = true := by
  intro op hop
  fin_cases hop <;> exact fun M mem cpu m => rfl

/-- Dispatch totality for the implemented opcodes in 0x50-0x5F. -/
theorem execCoverage5 : ∀ op ∈ implemented_opcodes_5,
    ∀ (M : Type) (mem : Memory M) (cpu : Cpu) (m : M),
    (exec mem op cpu m).isSome = true := by
  intro op hop
  fin_cases hop <;> exact fun M mem cpu m => rfl

/-- Dispatch totality for the implemented opcodes in 0x60-0x6F. -/
theorem execCoverage6 : ∀ op ∈ implemented_opcodes_6,
    ∀ (M : Type) (mem : Memory M) (cpu : Cpu) (m : M),
    (exec mem op cpu m).isSome = true := by
  intro op hop
  fin_cases hop <;> exact fun M mem cpu m => rfl

/-- Dispatch totality for the implemented opcodes in 0x70-0x7F. -/
theorem execCoverage7 : ∀ op ∈ implemented_opcodes_7,
    ∀ (M : Type) (mem : Memory M) (cpu : Cpu) (m : M),
    (exec mem op cpu m).isSome = true := by
  intro op hop
  fin_cases hop <;> exact fun M mem cpu m => rfl

/-- Dispatch totality for the implemented opcodes in 0x80-0x8F. -/
theorem execCoverage8 : ∀ op ∈ implemented_opcodes_8,
    ∀ (M : Type) (mem : Memory M) (cpu : Cpu) (m : M),
    (exec mem op cpu m).isSome = true := by
  intro op hop
  fin_cases hop <;> exact fun M mem cpu m => rfl

/-- Dispatch totality for the implemented opcodes in 0x90-0x9F. -/
theorem execCoverage9 : ∀ op ∈ implemented_opcodes_9,
    ∀ (M : Type) (mem : Memory M) (cpu : Cpu) (m : M),
    (exec mem op cpu m).isSome = true := by
  intro op hop
  fin_cases hop <;> exact fun M mem cpu m => rfl

/-- Dispatch totality for the implemented opcodes in 0xA0-0xAF. -/
theorem execCoverageA : ∀ op ∈ implemented_opcodes_A,
    ∀ (M : Type) (mem : Memory M) (cpu : Cpu) (m : M),
    (exec mem op cpu m).isSome = true := by
  intro op hop
  fin_cases hop <;> exact fun M mem cpu m => rfl

/-- Dispatch totality for the implemented opcodes in 0xB0-0xBF. -/
theorem execCoverageB : ∀ op ∈ implemented_opcodes_B,
    ∀ (M : Type) (mem : Memory M) (cpu : Cpu) (m : M),
    (exec mem op cpu m).isSome = true := by
  intro op hop
  fin_cases hop <;> exact fun M mem cpu m => rfl

/-- Dispatch totality for the implemented opcodes in 0xC0-0xCF. -/
theorem execCoverageC : ∀ op ∈ implemented_opcodes_C,
    ∀ (M : Type) (mem : Memory M) (cpu : Cpu) (m : M),
    (exec mem op cpu m).isSome = true := by
  intro op hop
  fin_cases hop <;> exact fun M mem cpu m => rfl

/-- Dispatch totality for the implemented opcodes in 0xD0-0xDF. -/
theorem execCoverageD : ∀ op ∈ implemented_opcodes_D,
    ∀ (M : Type) (mem : Memory M) (cpu : Cpu) (m : M),
    (exec mem op cpu m).isSome = true := by
  intro op hop
  fin_cases hop <;> exact fun M mem cpu m => rfl

/-- Dispatch totality for the implemented opcodes in 0xE0-0xEF. -/
theorem execCoverageE : ∀ op ∈ implemented_opcodes_E,
    ∀ (M : Type) (mem : Memory M) (cpu : Cpu) (m : M),
    (exec mem op cpu m).isSome = true := by
  intro op hop
  fin_cases hop <;> exact fun M mem cpu m => rfl

/-- Dispatch totality for the implemented opcodes in 0xF0-0xFF. -/
theorem execCoverageF : ∀ op ∈ implemented_opcodes_F,
    ∀ (M : Type) (mem : Memory M) (cpu : Cpu) (m : M),
    (exec mem op cpu m).isSome = true := by
  intro op hop
  fin_cases hop <;> exact fun M mem cpu m => rfl
/-- The 65C02 additions named by the specification: STZ (0x64, 0x74, 0x9C,
0x9E), BRA (0x80), PHX (0xDA), PHY (0x5A), PLX (0xFA), PLY (0x7A), DEA
(0x3A), INA (0x1A), and the indirect-zero-page variants of ORA, AND, EOR,
ADC, STA, LDA, CMP, SBC. -/
def missing_65c02_opcodes : List Nat :=
  [0x64, 0x74, 0x9C, 0x9E, 0x80, 0xDA, 0x5A, 0xFA, 0x7A, 0x3A, 0x1A,
   0x12, 0x32, 0x52, 0x72, 0x92, 0xB2, 0xD2, 0xF2]

set_option maxHeartbeats 12800000 in
/-- C4 amended: every opcode with a dispatch arm executes (the dispatch
returns a successor state for any CPU and memory), while each of the 65C02
additions named by the specification reaches the unknown-opcode panic
arm. -/
theorem opcode_coverage :
    (∀ op ∈ implemented_opcodes, ∀ (M : Type) (mem : Memory M) (cpu : Cpu) (m : M),
      (exec mem op cpu m).isSome = true) ∧
    (∀ op ∈ missing_65c02_opcodes, ∀ (M : Type) (mem : Memory M) (cpu : Cpu) (m : M),
      exec mem op cpu m = none) := by
  constructor
  · intro op hop
    rcases List.mem_append.mp hop with h | hop
    · exact execCoverage0 op h
    rcases List.mem_append.mp hop with h | hop
    · exact execCoverage1 op h
    rcases List.mem_append.mp hop with h | hop
    · exact execCoverage2 op h
    rcases List.mem_append.mp hop with h | hop
    · exact execCoverage3 op h
    rcases List.mem_append.mp hop with h | hop
    · exact execCoverage4 op h
    rcases List.mem_append.mp hop with h | hop
    · exact execCoverage5 op h
    rcases List.mem_append.mp hop with h | hop
    · exact execCoverage6 op h
    rcases List.mem_append.mp hop with h | hop
    · exact execCoverage7 op h
    rcases List.mem_append.mp hop with h | hop
    · exact execCoverage8 op h
    rcases List.mem_append.mp hop with h | hop
    · exact execCoverage9 op h
    rcases List.mem_append.mp hop with h | hop
    · exact execCoverageA op h
    rcases List.mem_append.mp hop with h | hop
    · exact execCoverageB op h
    rcases List.mem_append.mp hop with h | hop
    · exact execCoverageC op h
    rcases List.mem_append.mp hop with h | hop
    · exact execCoverageD op h
    rcases List.mem_append.mp hop with h | hop
    · exact execCoverageE op h
    exact execCoverageF op hop
  · intro op hop
    fin_cases hop <;> exact fun M mem cpu m => rfl

/-- Witness for the coverage theorem: NOP (0xEA) is implemented, STZ zero
page (0x64) is not. -/
theorem opcode_coverage_witness :
    ((0xEA : Nat) ∈ implemented_opcodes ∧
      (exec (romMem (fun _ => 0)) 0xEA sbcCpu ()).isSome = true) ∧
    ((0x64 : Nat) ∈ missing_65c02_opcodes ∧
      exec (romMem (fun _ => 0)) 0x64 sbcCpu () = none) := by
  refine ⟨⟨by decide, ?_⟩, ⟨by decide, ?_⟩⟩
  · exact opcode_coverage.1 0xEA (by decide) Unit (romMem (fun _ => 0)) sbcCpu ()
  · exact opcode_coverage.2 0x64 (by decide) Unit (romMem (fun _ => 0)) sbcCpu ()

end Inaccu6502

namespace Inaccunes

open Inaccu6502

/-- Nametable mirroring modes (cartridge.rs). -/
inductive MirroringType where
  | horizontal
  | vertical
  | fourScreen
deriving Repr, DecidableEq

/-- The cartridge: mirroring mode plus PRG and CHR byte arrays, modelled as
read functions with explicit lengths. -/
structure Cartridge where
  mirroring_type : MirroringType
  prg_data : List Nat
  chr_data : List Nat
deriving Repr, DecidableEq

/-- Cartridge::perform_chr_read: CHR index modulo the CHR length. -/
def Cartridge.perform_chr_read (c : Cartridge) (address : Nat) : Nat :=
  c.chr_data.getD (address % c.chr_data.length) 0

/-- Cartridge::perform_chr_write: the write branch is disabled in the
source (if false); the game's write is logged and dropped. -/
def Cartridge.perform_chr_write (c : Cartridge) (_address _data : Nat) : Cartridge := c

/-- Pointwise update of a byte array modelled as a function. -/
def writeArray (f : Nat → Nat) (i v : Nat) : Nat → Nat :=
  fun j => if j = i then v else f j

/-- The PPU state (struct PPU in ppu.rs).  The byte arrays cram (32 bytes),
oam (256 bytes) and nametables (4096 bytes) are index functions. -/
structure PPU where
  register_control : Nat
  register_mask : Nat
  register_oam_address : Nat
  register_scroll_x : Nat
  register_scroll_y : Nat
  cram : Nat → Nat
  oam : Nat → Nat
  nametables : Nat → Nat
  vblank_status_flag : Bool
  vblank_in_progress : Bool
  cursed_multi_register_flag : Bool
  sprite_0_hit_flag : Bool
  ppudata_latch : Nat
  current_render_address : Nat
  canon_render_address : Nat
  fine_scroll_x : Nat

/-- PPU::new. -/
def PPU.new : PPU :=
  { register_control := 0
    register_mask := 0
    register_oam_address := 0
    register_scroll_x := 0
    register_scroll_y := 0
    cram := fun _ => 0
    oam := fun _ => 0
    nametables := fun _ => 0
    vblank_status_flag := false
    vblank_in_progress := false
    cursed_multi_register_flag := true
    sprite_0_hit_flag := false
    ppudata_latch := 0
    current_render_address := 0
    canon_render_address := 0
    fine_scroll_x := 0 }

/-- PPU::perform_bus_read: 14-bit bus; below 0x2000 cartridge CHR, strictly
above 0x3F00 palette CRAM (index mod 32), otherwise nametable RAM. -/
def PPU.perform_bus_read (ppu : PPU) (cartridge : Cartridge) (address : Nat) : Nat :=
  let address := address &&& 0x3FFF
  if address < 0x2000 then cartridge.perform_chr_read address
  else if address > 0x3F00 then ppu.cram (address &&& 0x1F)
  else ppu.nametables (address &&& 0xFFF)

/-- PPU::perform_bus_write: mirrors perform_bus_read; nametable writes also
store to the mirrored alias selected by the cartridge mirroring mode. -/
def PPU.perform_bus_write (ppu : PPU) (cartridge : Cartridge) (address data : Nat) :
    PPU × Cartridge :=
  let address := address &&& 0x3FFF
  if address < 0x2000 then (ppu, cartridge.perform_chr_write address data)
  else if address > 0x3F00 then
    ({ ppu with cram := writeArray ppu.cram (address &&& 0x1F) data }, cartridge)
  else
    let bit_to_flip :=
      match cartridge.mirroring_type with
      | .horizontal => 0x400
      | .vertical => 0x800
      | .fourScreen => 0x000
    let nametable_address := address &&& 0xFFF
    let nt := writeArray ppu.nametables nametable_address data
    let nt := writeArray nt (nametable_address ^^^ bit_to_flip) data
    ({ ppu with nametables := nt }, cartridge)

/-- PPU::increment_ppudata_address: add 1 or 32 per CONTROL bit 2, 16-bit
wrap. -/
def PPU.increment_ppudata_address (ppu : PPU) : PPU :=
  let inc := if ppu.register_control &&& 0x4 = 0 then 1 else 32
  { ppu with current_render_address := (ppu.current_render_address + inc) % 65536 }

/-- PPU::is_nmi_on: CONTROL bit 7. -/
def PPU.is_nmi_on (ppu : PPU) : Bool := (ppu.register_control &&& 0x80) != 0

/-- PPU::is_nmi_supposed_to_be_active: CONTROL bit 7 AND vblank flag. -/
def PPU.is_nmi_supposed_to_be_active (ppu : PPU) : Bool :=
  ppu.is_nmi_on && ppu.vblank_status_flag

/-- PPU::perform_register_read: the CPU-visible register file.  The OAMDATA
read (port 4) is a todo panic in the source and is embedded as none. -/
def PPU.perform_register_read (ppu : PPU) (cartridge : Cartridge) (address : Nat) :
    Option (Nat × PPU) :=
  let address := address &&& 0x7
  if address = 0 ∨ address = 1 ∨ address = 3 ∨ address = 5 ∨ address = 6 then
    some (0, ppu)
  else if address = 2 then
    let ppu := { ppu with cursed_multi_register_flag := true }
    let result := 0
    let result := if ppu.sprite_0_hit_flag then result ||| 0x40 else result
    if ppu.vblank_status_flag then
      some (result ||| 0x80, { ppu with vblank_status_flag := false })
    else
      some (result, ppu)
  else if address = 4 then none
  else
    let real_result := ppu.perform_bus_read cartridge ppu.current_render_address
    let output_result := ppu.ppudata_latch
    let ppu := { ppu with ppudata_latch := real_result }
    some (output_result, ppu.increment_ppudata_address)

/-- PPU::vblank_start: raise the vblank flags, then forward the NMI level
to the CPU.  Cpu::set_nmi_signal is an unimplemented todo panic, so the
call never returns and the final sprite-0-hit update is dead code. -/
def PPU.vblank_start (ppu : PPU) (cpu : Cpu) : Option (PPU × Cpu) :=
  let ppu := { ppu with vblank_status_flag := true, vblank_in_progress := true }
  match set_nmi_signal cpu ppu.is_nmi_supposed_to_be_active with
  | none => none
  | some cpu => some ({ ppu with sprite_0_hit_flag := true }, cpu)

/-- PPU::vblank_stop: lower the vblank flags, then forward the NMI level to
the CPU (an unimplemented todo panic); the final sprite-0-hit clear is dead
code. -/
def PPU.vblank_stop (ppu : PPU) (cpu : Cpu) : Option (PPU × Cpu) :=
  let ppu := { ppu with vblank_status_flag := false, vblank_in_progress := false }
  match set_nmi_signal cpu ppu.is_nmi_supposed_to_be_active with
  | none => none
  | some cpu => some ({ ppu with sprite_0_hit_flag := false }, cpu)

/-- PPU::turn_on_sprite_0_hit. -/
def PPU.turn_on_sprite_0_hit (ppu : PPU) : PPU := { ppu with sprite_0_hit_flag := true }

/-- PPU::perform_register_write.  Port 0 forwards the NMI level through
Cpu::set_nmi_signal, an unimplemented todo panic, embedded as none. -/
def PPU.perform_register_write (ppu : PPU) (cpu : Cpu) (cartridge : Cartridge)
    (address data : Nat) : Option (PPU × Cpu × Cartridge) :=
  let address := address &&& 0x7
  if address = 0 then
    let loopy_bits := data &&& 0x3
    let t := ppu.canon_render_address &&& 0x73FF
    let t := t ||| (loopy_bits <<< 10)
    let ppu := { ppu with canon_render_address := t, register_control := data }
    match set_nmi_signal cpu ppu.is_nmi_supposed_to_be_active with
    | none => none
    | some cpu => some (ppu, cpu, cartridge)
  else if address = 1 then some ({ ppu with register_mask := data }, cpu, cartridge)
  else if address = 2 then some (ppu, cpu, cartridge)
  else if address = 3 then some ({ ppu with register_oam_address := data }, cpu, cartridge)
  else if address = 4 then
    some ({ ppu with
        oam := writeArray ppu.oam ppu.register_oam_address data,
        register_oam_address := (ppu.register_oam_address + 1) % 256 }, cpu, cartridge)
  else if address = 5 then
    if ppu.cursed_multi_register_flag then
      let t := ppu.canon_render_address &&& 0x7FE0
      let t := t ||| (data / 8)
      some ({ ppu with
          register_scroll_x := data, canon_render_address := t,
          fine_scroll_x := data &&& 0x7,
          cursed_multi_register_flag := !ppu.cursed_multi_register_flag }, cpu, cartridge)
    else
      let t := ppu.canon_render_address &&& 0x0C1F
      let t := t ||| ((data / 8) <<< 5)
      let t := t ||| ((data &&& 0x7) <<< 12)
      some ({ ppu with
          register_scroll_y := data, canon_render_address := t,
          cursed_multi_register_flag := !ppu.cursed_multi_register_flag }, cpu, cartridge)
  else if address = 6 then
    if ppu.cursed_multi_register_flag then
      let t := ppu.canon_render_address &&& 0x40FF
      let t := t ||| ((data &&& 0x3F) <<< 8)
      some ({ ppu with
          canon_render_address := t,
          cursed_multi_register_flag := !ppu.cursed_multi_register_flag }, cpu, cartridge)
    else
      let t := ppu.canon_render_address &&& 0x7F00
      let t := t ||| data
      some ({ ppu with
          canon_render_address := t, current_render_address := t,
          cursed_multi_register_flag := !ppu.cursed_multi_register_flag }, cpu, cartridge)
  else
    let wr := ppu.perform_bus_write cartridge ppu.current_render_address data
    some (wr.1.increment_ppudata_address, cpu, wr.2)


/-- C1: the NMI service claimed by the specification does not exist:
Cpu::set_nmi_signal is an unimplemented todo panic, so raising vblank with
CONTROL bit 7 set panics inside PPU::vblank_start instead of latching an
NMI edge for the CPU to service. -/
theorem nmi_unimplemented :
    (∀ (cpu : Cpu) (active : Bool), set_nmi_signal cpu active = none) ∧
    (∀ (ppu : PPU) (cpu : Cpu), ppu.vblank_start cpu = none) :=
  ⟨fun _ _ => rfl, fun _ _ => rfl⟩

/-- A small NROM-like cartridge for concrete PPU scenarios. -/
def testCartridge : Cartridge :=
  { mirroring_type := MirroringType.vertical, prg_data := [], chr_data := [0] }

/-- C6: a bus write of 0xAB to 0x3F00 falls into the nametable branch (the
palette condition is a strict greater-than): nametable bytes 0xF00 and its
vertical mirror 0x700 become 0xAB, palette CRAM is untouched, and the bus
read of 0x3F00 returns the nametable byte rather than CRAM. -/
theorem palette_boundary_bug :
    ((PPU.new.perform_bus_write testCartridge 0x3F00 0xAB).1.nametables 0xF00 = 0xAB) ∧
    ((PPU.new.perform_bus_write testCartridge 0x3F00 0xAB).1.nametables 0x700 = 0xAB) ∧
    ((PPU.new.perform_bus_write testCartridge 0x3F00 0xAB).1.perform_bus_read
      (PPU.new.perform_bus_write testCartridge 0x3F00 0xAB).2 0x3F00 = 0xAB) ∧
    ((PPU.new.perform_bus_write testCartridge 0x3F00 0xAB).1.cram 0 = 0) ∧
    (∀ i, (PPU.new.perform_bus_write testCartridge 0x3F00 0xAB).1.cram i = PPU.new.cram i) := by
  refine ⟨by decide, by decide, by decide, by decide, fun i => ?_⟩
  rfl

/-- C8 counterexample: vblank_start on a PPU whose sprite-0-hit flag is set
never returns (it panics in the unimplemented Cpu::set_nmi_signal), so it
does not produce any state with the flag cleared. -/
theorem vblank_start_counterexample :
    PPU.vblank_start { PPU.new with sprite_0_hit_flag := true } Cpu.new = none := rfl

/-- C8 amended: vblank_start never completes, so it does not clear the
sprite-0-hit flag (its own final assignment, were it reached, would set the
flag); during rendering the flag is raised by PPU::turn_on_sprite_0_hit. -/
theorem sprite_0_hit_at_vblank :
    (∀ (ppu : PPU) (cpu : Cpu), ppu.vblank_start cpu = none) ∧
    (∀ ppu : PPU, ppu.turn_on_sprite_0_hit.sprite_0_hit_flag = true) :=
  ⟨fun _ _ => rfl, fun _ => rfl⟩

/-- C7 counterexample: with T = 0x4000 (bit 14 set) and the write toggle in
the first state, writing 0x00 to ADDR (port 6) keeps bit 14 of T set; the
claim says the first write clears bit 14. -/
theorem addr_first_write_counterexample :
    (PPU.perform_register_write { PPU.new with canon_render_address := 0x4000 }
        Cpu.new testCartridge 6 0x00).map
      (fun r => r.1.canon_render_address.testBit 14) = some true := by decide


/-- C7 amended: with the write toggle in the first state, writing d to ADDR
(port 6) sets bits 8 through 13 of T from the low 6 bits of d, clears bit 15
and everything above, PRESERVES bit 14, and leaves the low byte of T and the
live address V unchanged; the following second write sets the low 8 bits of
T to the written byte, keeps bits 8 through 14, clears bit 15 and above, and
copies T into V. -/
theorem addr_port_writes (ppu : PPU) (cpu : Cpu) (cart : Cartridge) (d : Nat)
    (h1 : ppu.cursed_multi_register_flag = true)
    (ppu1 : PPU) (cpu1 : Cpu) (cart1 : Cartridge)
    (hw1 : PPU.perform_register_write ppu cpu cart 6 d = some (ppu1, cpu1, cart1))
    (d2 : Nat) (hd2 : d2 < 256)
    (ppu2 : PPU) (cpu2 : Cpu) (cart2 : Cartridge)
    (hw2 : PPU.perform_register_write ppu1 cpu1 cart1 6 d2 = some (ppu2, cpu2, cart2)) :
    ((∀ i, i < 8 →
        ppu1.canon_render_address.testBit i = ppu.canon_render_address.testBit i) ∧
     (∀ i, 8 ≤ i → i < 14 → ppu1.canon_render_address.testBit i = d.testBit (i - 8)) ∧
     ppu1.canon_render_address.testBit 14 = ppu.canon_render_address.testBit 14 ∧
     (∀ i, 15 ≤ i → ppu1.canon_render_address.testBit i = false) ∧
     ppu1.current_render_address = ppu.current_render_address ∧
     ppu1.cursed_multi_register_flag = false) ∧
    ((∀ i, i < 8 → ppu2.canon_render_address.testBit i = d2.testBit i) ∧
     (∀ i, 8 ≤ i → i < 15 → ppu2.canon_render_address.testBit i =
        ppu1.canon_render_address.testBit i) ∧
     (∀ i, 15 ≤ i → ppu2.canon_render_address.testBit i = false) ∧
     ppu2.current_render_address = ppu2.canon_render_address ∧
     ppu2.cursed_multi_register_flag = true) := by
  have e1 : PPU.perform_register_write ppu cpu cart 6 d =
      some ({ ppu with
        canon_render_address :=
          (ppu.canon_render_address &&& 0x40FF) ||| ((d &&& 0x3F) <<< 8),
        cursed_multi_register_flag := false }, cpu, cart) := by
    unfold PPU.perform_register_write
    simp only [show ((6 : Nat) &&& 7) = 6 from rfl]
    norm_num [h1]
  rw [e1] at hw1
  simp only [Option.some.injEq, Prod.mk.injEq] at hw1
  obtain ⟨hp1, hcpu1, hcart1⟩ := hw1
  subst hcpu1
  subst hcart1
  have hflag1 : ppu1.cursed_multi_register_flag = false := by rw [← hp1]
  have hcanon1 : ppu1.canon_render_address =
      (ppu.canon_render_address &&& 0x40FF) ||| ((d &&& 0x3F) <<< 8) := by rw [← hp1]
  have hcur1 : ppu1.current_render_address = ppu.current_render_address := by rw [← hp1]
  have e2 : PPU.perform_register_write ppu1 cpu cart 6 d2 =
      some ({ ppu1 with
        canon_render_address := (ppu1.canon_render_address &&& 0x7F00) ||| d2,
        current_render_address := (ppu1.canon_render_address &&& 0x7F00) ||| d2,
        cursed_multi_register_flag := true }, cpu, cart) := by
    unfold PPU.perform_register_write
    simp only [show ((6 : Nat) &&& 7) = 6 from rfl]
    norm_num [hflag1]
  rw [e2] at hw2
  simp only [Option.some.injEq, Prod.mk.injEq] at hw2
  obtain ⟨hp2, hcpu2, hcart2⟩ := hw2
  have hcanon2 : ppu2.canon_render_address =
      (ppu1.canon_render_address &&& 0x7F00) ||| d2 := by rw [← hp2]
  have hcur2 : ppu2.current_render_address =
      (ppu1.canon_render_address &&& 0x7F00) ||| d2 := by rw [← hp2]
  have hflag2 : ppu2.cursed_multi_register_flag = true := by rw [← hp2]
  refine ⟨⟨?_, ?_, ?_, ?_, hcur1, hflag1⟩, ⟨?_, ?_, ?_, ?_, hflag2⟩⟩
  · intro i hi
    rw [hcanon1]
    have hm : Nat.testBit 0x40FF i = true := by interval_cases i <;> decide
    have hs : decide (i ≥ 8) = false := decide_eq_false_iff_not.mpr (by omega)
    simp [Nat.testBit_lor, Nat.testBit_land, Nat.testBit_shiftLeft, hm, hs]
  · intro i hi1 hi2
    rw [hcanon1]
    interval_cases i <;>
      (simp only [Nat.testBit_lor, Nat.testBit_land, Nat.testBit_shiftLeft]
       norm_num [Nat.testBit_to_div_mod])
  · rw [hcanon1]
    simp only [Nat.testBit_lor, Nat.testBit_land, Nat.testBit_shiftLeft]
    norm_num [Nat.testBit_to_div_mod]
  · intro i hi
    rw [hcanon1]
    have h15 : (0x8000 : Nat) ≤ 2 ^ i := by
      calc (0x8000 : Nat) = 2 ^ 15 := by norm_num
      _ ≤ 2 ^ i := Nat.pow_le_pow_right (by norm_num) hi
    have ha : (ppu.canon_render_address &&& 0x40FF).testBit i = false :=
      Nat.testBit_lt_two_pow (lt_of_le_of_lt Nat.and_le_right (by omega))
    have hb : ((d &&& 0x3F) <<< 8).testBit i = false := by
      rw [Nat.testBit_shiftLeft]
      have hc : (d &&& 0x3F).testBit (i - 8) = false := by
        refine Nat.testBit_lt_two_pow (lt_of_le_of_lt Nat.and_le_right ?_)
        have : (2 : Nat) ^ 7 ≤ 2 ^ (i - 8) := Nat.pow_le_pow_right (by norm_num) (by omega)
        omega
      simp [hc]
    simp [Nat.testBit_lor, ha, hb]
  · intro i hi
    rw [hcanon2]
    have hm : Nat.testBit 0x7F00 i = false := by interval_cases i <;> decide
    simp [Nat.testBit_lor, Nat.testBit_land, hm]
  · intro i hi1 hi2
    rw [hcanon2]
    have hm : Nat.testBit 0x7F00 i = true := by interval_cases i <;> decide
    have hd2' : d2.testBit i = false :=
      Nat.testBit_lt_two_pow (lt_of_lt_of_le hd2 (by
        calc (256 : Nat) = 2 ^ 8 := by norm_num
        _ ≤ 2 ^ i := Nat.pow_le_pow_right (by norm_num) hi1))
    simp [Nat.testBit_lor, Nat.testBit_land, hm, hd2']
  · intro i hi
    rw [hcanon2]
    have h15 : (0x8000 : Nat) ≤ 2 ^ i := by
      calc (0x8000 : Nat) = 2 ^ 15 := by norm_num
      _ ≤ 2 ^ i := Nat.pow_le_pow_right (by norm_num) hi
    have ha : ((ppu1.canon_render_address &&& 0x7F00)).testBit i = false :=
      Nat.testBit_lt_two_pow (lt_of_le_of_lt Nat.and_le_right (by omega))
    have hd2' : d2.testBit i = false :=
      Nat.testBit_lt_two_pow (lt_of_lt_of_le hd2 (by omega))
    simp [Nat.testBit_lor, ha, hd2']
  · rw [hcur2, hcanon2]


/-- Concrete PPU before the ADDR write scenario: T = 0x4123 (bit 14 set),
toggle in the first state. -/
def addrPPU0 : PPU := { PPU.new with canon_render_address := 0x4123 }

/-- The PPU after the first ADDR write of 0x2A: T = 0x6A23, toggle
second. -/
def addrPPU1 : PPU :=
  { PPU.new with canon_render_address := 0x6A23, cursed_multi_register_flag := false }

/-- The PPU after the second ADDR write of 0x5C: T = V = 0x6A5C, toggle
first again. -/
def addrPPU2 : PPU :=
  { PPU.new with canon_render_address := 0x6A5C, current_render_address := 0x6A5C }

/-- Witness for the ADDR-port theorem: two writes of 0x2A then 0x5C with
T = 0x4123, showing bit 14 is preserved. -/
theorem addr_port_writes_witness :
    addrPPU0.cursed_multi_register_flag = true ∧
    PPU.perform_register_write addrPPU0 Cpu.new testCartridge 6 0x2A =
      some (addrPPU1, Cpu.new, testCartridge) ∧
    (0x5C : Nat) < 256 ∧
    PPU.perform_register_write addrPPU1 Cpu.new testCartridge 6 0x5C =
      some (addrPPU2, Cpu.new, testCartridge) ∧
    addrPPU1.canon_render_address.testBit 14 = addrPPU0.canon_render_address.testBit 14 := by
  refine ⟨rfl, rfl, by norm_num, rfl, ?_⟩
  exact (addr_port_writes addrPPU0 Cpu.new testCartridge 0x2A rfl addrPPU1 Cpu.new
    testCartridge rfl 0x5C (by norm_num) addrPPU2 Cpu.new testCartridge rfl).1.2.2.1

end Inaccunes
